import Mathlib

/-!
# Verification of the advocate-matching and case-lifecycle core

Shallow embedding of the repository's core logic:

* the backend matching scorer
  (src/backend/app/services/matching_service.py, MatchingService),
* the bot scorer (src/advocate_bot_complete.py, calculate_advocate_match_score),
* the client/advocate lifecycle endpoints
  (src/backend/app/api/client.py select_advocate and the case-profile merge,
   src/backend/app/api/advocate.py accept_case_request / reject_case_request).

Python floats are modelled with `Rat` (every number the scorers produce is a
multiple of 1/2, which binary floats represent exactly), dict lookups with
`Option`, Python truthiness with explicit helpers, and mutable database rows
with lists of records carried in an explicit state.
-/

namespace LegalMatch

/-- Python `o or d` on a nullable string (both `None` and `""` are falsy). -/
def pyStrOr (o : Option String) (d : String) : String :=
  match o with
  | none => d
  | some s => if s = "" then d else s

/-- Python `o or d` on a nullable integer (both `None` and `0` are falsy). -/
def pyNatOr (o : Option Nat) (d : Nat) : Nat :=
  match o with
  | none => d
  | some n => if n = 0 then d else n

/-- Python `o or d` on a nullable number (both `None` and `0` are falsy).
Also models `float(x) if x else d`. -/
def pyRatOr (o : Option ℚ) (d : ℚ) : ℚ :=
  match o with
  | none => d
  | some q => if q = 0 then d else q

/-- Python `min(a, b)` on two numbers (returns the first argument on ties). -/
def pyMin (a b : ℚ) : ℚ := if b < a then b else a

/-- Whether the first character list starts the second. -/
def charsLead : List Char → List Char → Bool
  | [], _ => true
  | _ :: _, [] => false
  | a :: as, b :: bs => a == b && charsLead as bs

/-- Whether the first character list occurs contiguously inside the second. -/
def charsInside (n : List Char) : List Char → Bool
  | [] => charsLead n []
  | b :: bs => charsLead n (b :: bs) || charsInside n bs

/-- Python `needle in hay` on strings: substring containment. -/
def pySubstr (needle hay : String) : Bool :=
  charsInside needle.data hay.data

/-- Python `s.lower()` (ASCII case folding, which covers the data at hand). -/
def pyLower (s : String) : String :=
  String.mk (s.data.map Char.toLower)

/-- Best-effort model of `str(float)` for the non-negative rationals that reach
reason strings (exact decimal expansion, at most six fractional digits,
trailing zeros dropped but at least one digit kept, as Python prints floats). -/
def pyFloatStr (q : ℚ) : String :=
  let n : Nat := (q * 1000000).floor.toNat
  let ip : Nat := n / 1000000
  let fr : Nat := n % 1000000
  let ds : List Char := Nat.toDigits 10 fr
  let padded : List Char := List.replicate (6 - ds.length) '0' ++ ds
  let trimmed : List Char := (padded.reverse.dropWhile (fun c => c = '0')).reverse
  toString ip ++ "." ++ (if trimmed = [] then "0" else String.mk trimmed)

/-- `fee_category` enum of the backend (app/models/advocate_profile.py). -/
inductive FeeCategory where
  | premium
  | standard
  | affordable
  | pro_bono
deriving DecidableEq

/-- The `.value` string of a `FeeCategory` member. -/
def FeeCategory.val : FeeCategory → String
  | .premium => "premium"
  | .standard => "standard"
  | .affordable => "affordable"
  | .pro_bono => "pro_bono"

/-- The columns of `AdvocateProfile` (app/models/advocate_profile.py) that the
core reads.  Nullable columns are `Option`s. -/
structure BackendProfile where
  user_id : Nat
  enrollment_number : String
  states : Option (List String)
  districts : Option (List String)
  home_court : Option String
  primary_specializations : Option (List String)
  sub_specializations : Option (List String)
  experience_years : Option Nat
  landmark_cases : Option String
  success_rate : Option ℚ
  current_case_load : Option Nat
  max_case_capacity : Option Nat
  fee_category : Option FeeCategory
  languages : Option (List String)
  rating : Option ℚ
  review_count : Nat
  is_available : Bool
  is_verified : Bool
deriving DecidableEq

/-- The columns of `User` that the matching service reads. -/
structure BackendUser where
  id : Nat
  full_name : String
  is_active : Bool
deriving DecidableEq

/-- The loosely-typed case-profile dictionary consumed by both scorers.
A field is `none` when the key is absent from the dict, in which case the
`.get` default applies. -/
structure CaseDict where
  matter_type : Option String
  sub_category : Option String
  state : Option String
  district : Option String
  court_level : Option String
  complexity : Option String
  estimated_complexity : Option String
  urgency : Option String
  urgency_level : Option String
  preferred_languages : Option (List String)
  budget_category : Option String
  requires_senior_counsel : Option Bool
  specific_expertise_needed : Option (List String)
deriving DecidableEq

/-- The empty case dict (every key absent). -/
def CaseDict.empty : CaseDict :=
  { matter_type := none, sub_category := none, state := none, district := none,
    court_level := none, complexity := none, estimated_complexity := none,
    urgency := none, urgency_level := none, preferred_languages := none,
    budget_category := none, requires_senior_counsel := none,
    specific_expertise_needed := none }

/-- `complexity_requirements.get(complexity, 5)`: minimum years per complexity. -/
def complexityMinYears (complexity : String) : Nat :=
  if complexity = "simple" then 3
  else if complexity = "moderate" then 5
  else if complexity = "complex" then 10
  else if complexity = "highly_complex" then 15
  else 5

/-- `fee_mapping.get(budget, ["standard"])`: acceptable advocate fee tiers per
requested budget tier. -/
def acceptableFees (budget : String) : List String :=
  if budget = "pro_bono" then ["affordable", "pro_bono"]
  else if budget = "affordable" then ["affordable", "standard"]
  else if budget = "standard" then ["standard", "affordable", "premium"]
  else if budget = "premium" then ["premium", "standard"]
  else ["standard"]

/-- `profile.fee_category.value if profile.fee_category else "standard"`. -/
def backendFeeStr (p : BackendProfile) : String :=
  match p.fee_category with
  | none => "standard"
  | some f => f.val

/-- The number of comma-separated landmark cases the backend scorer sees:
`len(landmark_cases.split(','))` guarded by the truthiness of the column
(`None` and `""` give no count). -/
def backendLandmarkCount (p : BackendProfile) : Nat :=
  match p.landmark_cases with
  | none => 0
  | some s => if s = "" then 0 else (s.splitOn ",").length

/-!
## Backend scorer: MatchingService._calculate_match_score

Each block of the Python function becomes one clause function returning the
points it adds and the reasons it appends; the score is the sum and the
reasons the in-order concatenation, exactly as the sequential accumulation
in the source.
-/

/-- SPECIALIZATION MATCH (30 points) block of `_calculate_match_score`. -/
def specClauseB (p : BackendProfile) (c : CaseDict) : ℚ × List String :=
  let matter_type := c.matter_type.getD ""
  let sub_category := c.sub_category.getD ""
  let specific_expertise := c.specific_expertise_needed.getD []
  let specs := p.primary_specializations.getD []
  let subs := p.sub_specializations.getD []
  if matter_type ≠ "" ∧ matter_type ∈ specs then
    let expertiseBonus : ℚ × List String :=
      if specific_expertise ≠ [] then
        match specific_expertise.find?
            (fun e => subs.any (fun sub => pySubstr (pyLower e) (pyLower sub))) with
        | some e => (5, ["Expert in " ++ e])
        | none => (0, [])
      else (0, [])
    let subCatBonus : ℚ × List String :=
      if sub_category ≠ "" then
        match subs.find? (fun sub =>
            pySubstr (pyLower sub_category) (pyLower sub) ||
            pySubstr (pyLower sub) (pyLower sub_category)) with
        | some _ => (5, ["Handles " ++ sub_category ++ " cases regularly"])
        | none => (0, [])
      else (0, [])
    (20 + expertiseBonus.1 + subCatBonus.1,
     ("Specializes in " ++ matter_type ++ " matters") :: (expertiseBonus.2 ++ subCatBonus.2))
  else
    if specific_expertise ≠ [] then
      match specific_expertise.find?
          (fun e => subs.any (fun sub => pySubstr (pyLower e) (pyLower sub))) with
      | some e => (10, ["Has experience with " ++ e])
      | none => (0, [])
    else (0, [])

/-- GEOGRAPHIC MATCH (25 points) block of `_calculate_match_score`. -/
def geoClauseB (p : BackendProfile) (c : CaseDict) : ℚ × List String :=
  let state := c.state.getD ""
  let district := c.district.getD ""
  let court_level := c.court_level.getD "district"
  let advocate_states := p.states.getD []
  let advocate_districts := p.districts.getD []
  let stateA : ℚ × List String :=
    if state ∈ advocate_states then (10, ["Practices in " ++ state]) else (0, [])
  let districtA : ℚ × List String :=
    if district ≠ "" ∧ district ∈ advocate_districts then
      (10, ["Familiar with " ++ district ++ " courts"])
    else (0, [])
  let homeA : ℚ × List String :=
    if court_level = "high_court" ∧ p.home_court.getD "" ≠ "" then
      (if pySubstr (pyLower state) (pyLower (p.home_court.getD "")) then
        (5, ["Home court is " ++ p.home_court.getD ""])
      else (0, []))
    else (0, [])
  (stateA.1 + districtA.1 + homeA.1, stateA.2 ++ districtA.2 ++ homeA.2)

/-- EXPERIENCE ALIGNMENT (15 points) block of `_calculate_match_score`. -/
def expClauseB (p : BackendProfile) (c : CaseDict) : ℚ × List String :=
  let complexity := c.complexity.getD (c.estimated_complexity.getD "moderate")
  let min_years := complexityMinYears complexity
  let years := pyNatOr p.experience_years 0
  if min_years ≤ years then
    (pyMin 15 (8 + ((years - min_years : Nat) : ℚ) * (1 / 2)),
     [toString years ++ " years of practice"])
  else (5, [])

/-- Court-level experience block (+3 for high-court landmark record). -/
def landmarkClauseB (p : BackendProfile) (c : CaseDict) : ℚ × List String :=
  let court_level := c.court_level.getD "district"
  if court_level = "high_court" ∧ 5 < backendLandmarkCount p then
    (3, ["Experience with High Court matters"])
  else (0, [])

/-- AVAILABILITY (10 points) block of `_calculate_match_score`. -/
def availClauseB (p : BackendProfile) (c : CaseDict) : ℚ × List String :=
  let urgency := c.urgency.getD (c.urgency_level.getD "normal")
  let max_capacity := pyNatOr p.max_case_capacity 20
  let current_load := pyNatOr p.current_case_load 0
  let wl : ℚ := if 0 < max_capacity then (current_load : ℚ) / (max_capacity : ℚ) else 0
  if wl < 1 / 2 then (10, ["Excellent availability"])
  else if wl < 7 / 10 then (7, ["Good availability"])
  else if wl < 9 / 10 then (4, ["Moderate availability"])
  else ((2 : ℚ) - (if urgency = "urgent" then 5 else 0), [])

/-- FEE ALIGNMENT (10 points) block of `_calculate_match_score`. -/
def feeClauseB (p : BackendProfile) (c : CaseDict) : ℚ × List String :=
  let budget := c.budget_category.getD "standard"
  let advocate_fee := backendFeeStr p
  if advocate_fee ∈ acceptableFees budget then
    if advocate_fee = budget then
      (10, ["Fee structure matches budget (" ++ advocate_fee ++ ")"])
    else
      (6, ["Fee structure compatible (" ++ advocate_fee ++ ")"])
  else (2, [])

/-- LANGUAGE MATCH (5 points) block of `_calculate_match_score`; the Python
set intersection is modelled as the deduplicated filtered list. -/
def langClauseB (p : BackendProfile) (c : CaseDict) : ℚ × List String :=
  let languages := c.preferred_languages.getD ["Hindi", "English"]
  let advocate_languages := p.languages.getD []
  let matching := (languages.filter (fun l => l ∈ advocate_languages)).dedup
  if matching ≠ [] then
    (pyMin 5 ((matching.length : ℚ) * 2), ["Speaks " ++ String.intercalate ", " matching])
  else (0, [])

/-- RATING BONUS (5 points) block of `_calculate_match_score`. -/
def ratingClauseB (p : BackendProfile) : ℚ × List String :=
  let rating := pyRatOr p.rating 0
  if 9 / 2 ≤ rating then
    (5, ["Highly rated (" ++ pyFloatStr rating ++ "/5, " ++
         toString p.review_count ++ " reviews)"])
  else if 4 ≤ rating then
    (3, ["Well rated (" ++ pyFloatStr rating ++ "/5)"])
  else (0, [])

/-- SUCCESS RATE BONUS block of `_calculate_match_score` (no reason string). -/
def successClauseB (p : BackendProfile) : ℚ × List String :=
  match p.success_rate with
  | none => (0, [])
  | some r =>
    if r = 0 then (0, [])
    else if 80 ≤ r then (3, [])
    else if 60 ≤ r then (1, [])
    else (0, [])

/-- The scoring blocks of `_calculate_match_score` in source order. -/
def backendClauses (p : BackendProfile) (c : CaseDict) : List (ℚ × List String) :=
  [specClauseB p c, geoClauseB p c, expClauseB p c, landmarkClauseB p c,
   availClauseB p c, feeClauseB p c, langClauseB p c, ratingClauseB p,
   successClauseB p]

/-- The accumulated score of `_calculate_match_score` before the final cap. -/
def backendRawScore (p : BackendProfile) (c : CaseDict) : ℚ :=
  ((backendClauses p c).map Prod.fst).sum

/-- The accumulated reasons list of `_calculate_match_score`. -/
def backendReasons (p : BackendProfile) (c : CaseDict) : List String :=
  ((backendClauses p c).map Prod.snd).flatten

/-- `MatchingService._calculate_match_score`: hard filters, then the capped
sum of the scoring blocks together with the reasons. -/
def backendCalc (p : BackendProfile) (c : CaseDict) : ℚ × List String :=
  let state := c.state.getD ""
  let advocate_states := p.states.getD []
  if state ≠ "" ∧ advocate_states ≠ [] ∧ state ∉ advocate_states then
    (0, ["Not available in " ++ state])
  else if p.is_available = false then
    (0, ["Currently not accepting new cases"])
  else
    (pyMin 100 (backendRawScore p c), backendReasons p c)

/-!
## Bot scorer: calculate_advocate_match_score (src/advocate_bot_complete.py)

Same clause-by-clause embedding.  The bot's `AdvocateProfile` dataclass has
non-nullable fields, so no `or`-normalisation appears here.
-/

/-- The fields of the bot's `AdvocateProfile` dataclass that the scorer reads. -/
structure BotAdvocate where
  advocate_id : String
  name : String
  enrollment_number : String
  practicing_states : List String
  practicing_districts : List String
  home_court : String
  specializations : List String
  sub_specializations : List String
  years_of_practice : Nat
  landmark_cases : Nat
  success_rate_category : String
  current_case_load : Nat
  max_case_load : Nat
  available_for_new_cases : Bool
  fee_category : String
  languages : List String
  rating : ℚ
  total_reviews : Nat
deriving DecidableEq

/-- Specialization block of `calculate_advocate_match_score`. -/
def specClauseBot (a : BotAdvocate) (c : CaseDict) : ℚ × List String :=
  let matter_type := c.matter_type.getD ""
  let sub_category := c.sub_category.getD ""
  let specific_expertise := c.specific_expertise_needed.getD []
  if matter_type ∈ a.specializations then
    let expertiseBonus : ℚ × List String :=
      match specific_expertise.find?
          (fun e => a.sub_specializations.any (fun sub => pySubstr (pyLower e) (pyLower sub))) with
      | some e => (5, ["Expert in " ++ e])
      | none => (0, [])
    let subCatBonus : ℚ × List String :=
      if sub_category ≠ "" then
        match a.sub_specializations.find? (fun sub =>
            pySubstr (pyLower sub_category) (pyLower sub) ||
            pySubstr (pyLower sub) (pyLower sub_category)) with
        | some _ => (5, ["Handles " ++ sub_category ++ " cases regularly"])
        | none => (0, [])
      else (0, [])
    (20 + expertiseBonus.1 + subCatBonus.1,
     ("Specializes in " ++ matter_type ++ " matters") :: (expertiseBonus.2 ++ subCatBonus.2))
  else
    match specific_expertise.find?
        (fun e => a.sub_specializations.any (fun sub => pySubstr (pyLower e) (pyLower sub))) with
    | some e => (10, ["Has experience with " ++ e])
    | none => (0, [])

/-- Geographic block of `calculate_advocate_match_score`: the +10 state points
are unconditional (the hard filter already confirmed the state). -/
def geoClauseBot (a : BotAdvocate) (c : CaseDict) : ℚ × List String :=
  let state := c.state.getD ""
  let district := c.district.getD ""
  let court_level := c.court_level.getD "district"
  let districtA : ℚ × List String :=
    if district ∈ a.practicing_districts then
      (10, ["Familiar with " ++ district ++ " courts"])
    else (0, [])
  let homeA : ℚ × List String :=
    if court_level = "high_court" then
      (if pySubstr (pyLower state) (pyLower a.home_court) then
        (5, ["Home court is " ++ a.home_court])
      else (0, []))
    else (0, [])
  (10 + districtA.1 + homeA.1,
   ("Practices in " ++ state) :: (districtA.2 ++ homeA.2))

/-- Experience block of `calculate_advocate_match_score`. -/
def expClauseBot (a : BotAdvocate) (c : CaseDict) : ℚ × List String :=
  let complexity := c.estimated_complexity.getD "moderate"
  let min_years := complexityMinYears complexity
  if min_years ≤ a.years_of_practice then
    (pyMin 15 (8 + ((a.years_of_practice - min_years : Nat) : ℚ) * (1 / 2)),
     [toString a.years_of_practice ++ " years of practice"])
  else (5, [])

/-- Senior-counsel block of `calculate_advocate_match_score` (absent from the
backend scorer). -/
def seniorClauseBot (a : BotAdvocate) (c : CaseDict) : ℚ × List String :=
  if c.requires_senior_counsel.getD false = true ∧ 15 ≤ a.years_of_practice then
    (5, ["Senior counsel experience"])
  else (0, [])

/-- Court-level experience block of `calculate_advocate_match_score`. -/
def landmarkClauseBot (a : BotAdvocate) (c : CaseDict) : ℚ × List String :=
  let court_level := c.court_level.getD "district"
  if court_level = "high_court" ∧ 5 < a.landmark_cases then
    (3, [toString a.landmark_cases ++ " reported judgments"])
  else (0, [])

/-- Availability block of `calculate_advocate_match_score`.  The source divides
without a zero guard (a zero `max_case_load` would raise in Python; here the
rational division by zero yields 0). -/
def availClauseBot (a : BotAdvocate) (c : CaseDict) : ℚ × List String :=
  let urgency := c.urgency_level.getD "normal"
  let wl : ℚ := (a.current_case_load : ℚ) / (a.max_case_load : ℚ)
  if wl < 1 / 2 then (10, ["Excellent availability"])
  else if wl < 7 / 10 then (7, ["Good availability"])
  else if wl < 9 / 10 then (4, ["Moderate availability"])
  else ((2 : ℚ) - (if urgency = "urgent" then 5 else 0), [])

/-- Fee block of `calculate_advocate_match_score`. -/
def feeClauseBot (a : BotAdvocate) (c : CaseDict) : ℚ × List String :=
  let budget := c.budget_category.getD "standard"
  if a.fee_category ∈ acceptableFees budget then
    if a.fee_category = budget then
      (10, ["Fee structure matches budget (" ++ a.fee_category ++ ")"])
    else
      (6, ["Fee structure compatible (" ++ a.fee_category ++ ")"])
  else (2, [])

/-- Language block of `calculate_advocate_match_score`. -/
def langClauseBot (a : BotAdvocate) (c : CaseDict) : ℚ × List String :=
  let languages := c.preferred_languages.getD ["Hindi", "English"]
  let matching := (languages.filter (fun l => l ∈ a.languages)).dedup
  if matching ≠ [] then
    (pyMin 5 ((matching.length : ℚ) * 2), ["Speaks " ++ String.intercalate ", " matching])
  else (0, [])

/-- Rating block of `calculate_advocate_match_score`. -/
def ratingClauseBot (a : BotAdvocate) : ℚ × List String :=
  if 9 / 2 ≤ a.rating then
    (5, ["Highly rated (" ++ pyFloatStr a.rating ++ "/5, " ++
         toString a.total_reviews ++ " reviews)"])
  else if 4 ≤ a.rating then
    (3, ["Well rated (" ++ pyFloatStr a.rating ++ "/5)"])
  else (0, [])

/-- Success-rate block of `calculate_advocate_match_score`. -/
def successClauseBot (a : BotAdvocate) : ℚ × List String :=
  if a.success_rate_category = "excellent" then (3, [])
  else if a.success_rate_category = "good" then (1, [])
  else (0, [])

/-- The scoring blocks of `calculate_advocate_match_score` in source order. -/
def botClauses (a : BotAdvocate) (c : CaseDict) : List (ℚ × List String) :=
  [specClauseBot a c, geoClauseBot a c, expClauseBot a c, seniorClauseBot a c,
   landmarkClauseBot a c, availClauseBot a c, feeClauseBot a c, langClauseBot a c,
   ratingClauseBot a, successClauseBot a]

/-- The accumulated score of `calculate_advocate_match_score` before the cap. -/
def botRawScore (a : BotAdvocate) (c : CaseDict) : ℚ :=
  ((botClauses a c).map Prod.fst).sum

/-- The accumulated reasons of `calculate_advocate_match_score`. -/
def botReasons (a : BotAdvocate) (c : CaseDict) : List String :=
  ((botClauses a c).map Prod.snd).flatten

/-- `calculate_advocate_match_score`: hard filters, then the capped sum. -/
def botCalc (a : BotAdvocate) (c : CaseDict) : ℚ × List String :=
  let state := c.state.getD ""
  if state ∉ a.practicing_states then
    (0, ["Not available in " ++ state])
  else if a.available_for_new_cases = false then
    (0, ["Currently not accepting new cases"])
  else
    (pyMin 100 (botRawScore a c), botReasons a c)

/-!
## Recommendation ranking: MatchingService.get_recommendations

The database join (AdvocateProfile x User, available and active only) is
modelled by an explicit snapshot list of profile/user pairs in query order.
-/

/-- Python `round(q, 1)` for the scores at hand (all are exact multiples of
1/2, where rounding is the identity and banker's rounding never differs). -/
def pyRound1 (q : ℚ) : ℚ := ((round (q * 10) : ℤ) : ℚ) / 10

/-- The fields of a recommendation entry built by `get_recommendations` that
the core reads downstream (contact and display-only fields are omitted). -/
structure RecEntry where
  advocate_id : Nat
  name : String
  enrollment_number : String
  match_score : ℚ
  match_reasons : List String
  years_of_practice : Option Nat
  fee_category : String
  rating : ℚ
  review_count : Nat
  is_verified : Bool
deriving DecidableEq

/-- One recommendation dict of `get_recommendations`
(`"match_score": round(score, 1)` and the profile fields). -/
def makeEntry (p : BackendProfile) (u : BackendUser) (score : ℚ)
    (reasons : List String) : RecEntry :=
  { advocate_id := u.id, name := u.full_name,
    enrollment_number := p.enrollment_number,
    match_score := pyRound1 score, match_reasons := reasons,
    years_of_practice := p.experience_years,
    fee_category := backendFeeStr p,
    rating := pyRatOr p.rating 0, review_count := p.review_count,
    is_verified := p.is_verified }

/-- The positive-score entries, in snapshot order: the query filter
(`is_available` and `is_active`) followed by the `score > 0` filter. -/
def eligibleRecs (snapshot : List (BackendProfile × BackendUser))
    (c : CaseDict) : List RecEntry :=
  (snapshot.filter (fun pu => pu.1.is_available && pu.2.is_active)).filterMap
    (fun pu =>
      let sr := backendCalc pu.1 c
      if 0 < sr.1 then some (makeEntry pu.1 pu.2 sr.1 sr.2) else none)

/-- The comparison `recommendations.sort(key=match_score, reverse=True)` uses:
stable descending order by match score. -/
def recLE (x y : RecEntry) : Bool := decide (y.match_score ≤ x.match_score)

/-- The sorted recommendation list (before `[:limit]`). -/
def rankedRecs (snapshot : List (BackendProfile × BackendUser))
    (c : CaseDict) : List RecEntry :=
  (eligibleRecs snapshot c).mergeSort recLE

/-- `MatchingService.get_recommendations` with an explicit `limit`. -/
def getRecommendations (snapshot : List (BackendProfile × BackendUser))
    (c : CaseDict) (lim : Nat) : List RecEntry :=
  (rankedRecs snapshot c).take lim

/-- `get_recommendations` at its default `limit = 5`. -/
def getRecommendationsDefault (snapshot : List (BackendProfile × BackendUser))
    (c : CaseDict) : List RecEntry :=
  getRecommendations snapshot c 5

/-!
## Case lifecycle: state, records and the three endpoint operations

Database tables become lists of records; `datetime.utcnow()` becomes the
state's `now`; `uuid4` request ids become a counter.  Each endpoint is a
function returning the response (or the HTTP error raised) together with the
post-state; every raise happens before `db.commit()`, so an error leaves the
state unchanged (uncommitted session changes are rolled back).
-/

/-- `CaseStatus` enum (app/models/case.py). -/
inductive CaseStatus where
  | ai_conversation
  | pending_advocate
  | advocate_assigned
  | advocate_rejected
  | in_progress
  | completed
  | closed
deriving DecidableEq

/-- `AdvocateResponse` enum (app/models/case.py). -/
inductive AdvocateResponse where
  | pending
  | accepted
  | rejected
deriving DecidableEq

/-- `RequestStatus` enum (app/models/advocate_case_request.py). -/
inductive RequestStatus where
  | pending
  | accepted
  | rejected
deriving DecidableEq

/-- `ConversationPhase` enum (app/models/conversation.py). -/
inductive ConversationPhase where
  | ai_interview
  | ai_counselling
  | ai_drafting
  | advocate_review
  | advocate_active
deriving DecidableEq

/-- A `cases` row (app/models/case.py), restricted to the columns the
lifecycle endpoints read or write. -/
structure CaseRec where
  id : Nat
  client_id : Nat
  advocate_id : Option Nat
  conversation_id : Option Nat
  matter_type : Option String
  sub_category : Option String
  state : Option String
  district : Option String
  court_level : Option String
  complexity : Option String
  urgency : Option String
  case_summary : Option String
  status : CaseStatus
  selected_advocate_id : Option Nat
  advocate_response : Option AdvocateResponse
  rejection_reason : Option String
  updated_at : Nat
deriving DecidableEq

/-- An `advocate_case_requests` row (app/models/advocate_case_request.py). -/
structure RequestRec where
  id : Nat
  case_id : Nat
  advocate_id : Nat
  client_id : Nat
  match_score : ℤ
  match_explanation : String
  status : RequestStatus
  response_at : Option Nat
  rejection_reason : Option String
deriving DecidableEq

/-- A `conversations` row (app/models/conversation.py). -/
structure ConversationRec where
  id : Nat
  client_id : Nat
  case_id : Option Nat
  phase : ConversationPhase
  updated_at : Nat
deriving DecidableEq

/-- A `messages` row as written by accept_case_request's system message. -/
structure MessageRec where
  conversation_id : Nat
  sender_type : String
  sender_id : Option Nat
  content : String
  message_type : String
deriving DecidableEq

/-- The database state the lifecycle endpoints act on. -/
structure DBState where
  users : List BackendUser
  profiles : List BackendProfile
  cases : List CaseRec
  conversations : List ConversationRec
  requests : List RequestRec
  messages : List MessageRec
  nextRequestId : Nat
  now : Nat
deriving DecidableEq

/-- The HTTP errors the three endpoints raise. -/
inductive LifecycleError where
  | notFound
  | alreadyAssigned
  | pendingExists
  | alreadyProcessed
deriving DecidableEq

/-- The profile/user join of `get_recommendations` and `get_advocate_by_id`,
in profile-table order. -/
def dirSnapshot (s : DBState) : List (BackendProfile × BackendUser) :=
  s.profiles.filterMap (fun p =>
    (s.users.find? (fun u => u.id == p.user_id)).map (fun u => (p, u)))

/-- `get_advocate_by_id`: the join row for a user id (note: no availability
or activity filter here). -/
def findAdvocateData (s : DBState) (aid : Nat) :
    Option (BackendProfile × BackendUser) :=
  (dirSnapshot s).find? (fun pu => pu.2.id == aid)

/-- The case lookup of select_advocate (`Case.id == case_id` and
`Case.client_id == current_user.id`). -/
def findCase (s : DBState) (cid uid : Nat) : Option CaseRec :=
  s.cases.find? (fun k => k.id == cid && k.client_id == uid)

/-- Whether a pending `AdvocateCaseRequest` row exists for the case. -/
def hasPendingRequest (s : DBState) (cid : Nat) : Bool :=
  s.requests.any (fun r => r.case_id == cid && r.status == RequestStatus.pending)

/-- The dict select_advocate builds from the Case row for the scoring call. -/
def caseDictOfCase (k : CaseRec) : CaseDict :=
  { matter_type := k.matter_type, sub_category := k.sub_category,
    state := k.state, district := k.district,
    court_level := some (pyStrOr k.court_level "district"),
    complexity := some (pyStrOr k.complexity "moderate"),
    estimated_complexity := none, urgency := none, urgency_level := none,
    preferred_languages := none, budget_category := none,
    requires_senior_counsel := none, specific_expertise_needed := none }

/-- `next((r for r in recommendations if r.advocate_id == id), default)` with
the literal default `match_score 50`, reasons `["Selected by client"]`. -/
def lookupMatchInfo (recs : List RecEntry) (aid : Nat) : ℚ × List String :=
  match recs.find? (fun r => r.advocate_id == aid) with
  | some r => (r.match_score, r.match_reasons)
  | none => (50, ["Selected by client"])

/-- `POST /cases/{case_id}/select-advocate` (src/backend/app/api/client.py):
conflict checks, score lookup over the top-20 recommendations, creation of the
pending request and the case-status flip.  Returns the new request id. -/
def selectAdvocate (s : DBState) (cid aid uid : Nat) :
    Except LifecycleError Nat × DBState :=
  match findCase s cid uid with
  | none => (Except.error LifecycleError.notFound, s)
  | some k =>
    if k.status = CaseStatus.advocate_assigned then
      (Except.error LifecycleError.alreadyAssigned, s)
    else if hasPendingRequest s cid then
      (Except.error LifecycleError.pendingExists, s)
    else
      match findAdvocateData s aid with
      | none => (Except.error LifecycleError.notFound, s)
      | some _ =>
        let recs := getRecommendations (dirSnapshot s) (caseDictOfCase k) 20
        let info := lookupMatchInfo recs aid
        let newReq : RequestRec :=
          { id := s.nextRequestId, case_id := cid, advocate_id := aid,
            client_id := uid, match_score := ⌊info.1⌋,
            match_explanation := String.intercalate "; " info.2,
            status := RequestStatus.pending, response_at := none,
            rejection_reason := none }
        let cases' := s.cases.map (fun k2 =>
          if k2.id == cid && k2.client_id == uid then
            { k2 with
              status := CaseStatus.pending_advocate
              selected_advocate_id := some aid
              advocate_response := some AdvocateResponse.pending
              updated_at := s.now }
          else k2)
        (Except.ok s.nextRequestId,
         { s with
           requests := s.requests ++ [newReq]
           cases := cases'
           nextRequestId := s.nextRequestId + 1 })

/-- The request lookup of accept/reject (`id == request_id` and
`advocate_id == current_user.id`). -/
def findRequest (s : DBState) (rid uid : Nat) : Option RequestRec :=
  s.requests.find? (fun r => r.id == rid && r.advocate_id == uid)

/-- The advocate full name used in the accept system message. -/
def userName (s : DBState) (uid : Nat) : String :=
  ((s.users.find? (fun u => u.id == uid)).map (fun u => u.full_name)).getD ""

/-- An apostrophe (the accept greeting contains several). -/
def apos : String := String.singleton (Char.ofNat 39)

/-- The system-message text accept_case_request posts to the conversation. -/
def acceptGreeting (name : String) : String :=
  "Hello! I" ++ apos ++ "m " ++ name ++
  ", and I" ++ apos ++ "ll be assisting you with your case from now on. I" ++
  apos ++ "ve reviewed our AI assistant" ++ apos ++
  "s conversation with you and am ready to help. Please feel free to ask any questions or share additional information."

/-- `POST /case-requests/{request_id}/accept`
(src/backend/app/api/advocate.py): flips the request to accepted, the case to
advocate_assigned, the linked conversation (when present) to advocate_active
with a system message, and increments the advocate's case load — all before
the single `db.commit()`.  A missing case row would raise out of
`scalar_one`, rolling the session back, so it is modelled as an error with
the state unchanged. -/
def acceptRequest (s : DBState) (rid uid : Nat) :
    Except LifecycleError Nat × DBState :=
  match findRequest s rid uid with
  | none => (Except.error LifecycleError.notFound, s)
  | some r =>
    if r.status ≠ RequestStatus.pending then
      (Except.error LifecycleError.alreadyProcessed, s)
    else
      match s.cases.find? (fun k => k.id == r.case_id) with
      | none => (Except.error LifecycleError.notFound, s)
      | some k =>
        let requests' := s.requests.map (fun r2 =>
          if r2.id == rid && r2.advocate_id == uid then
            { r2 with
              status := RequestStatus.accepted
              response_at := some s.now }
          else r2)
        let cases' := s.cases.map (fun k2 =>
          if k2.id == r.case_id then
            { k2 with
              advocate_id := some uid
              status := CaseStatus.advocate_assigned
              advocate_response := some AdvocateResponse.accepted
              updated_at := s.now }
          else k2)
        let convMsg : List ConversationRec × List MessageRec :=
          match k.conversation_id with
          | none => (s.conversations, s.messages)
          | some vid =>
            match s.conversations.find? (fun v => v.id == vid) with
            | none => (s.conversations, s.messages)
            | some _ =>
              (s.conversations.map (fun v =>
                 if v.id == vid then
                   { v with
                     phase := ConversationPhase.advocate_active
                     updated_at := s.now }
                 else v),
               s.messages ++
                 [{ conversation_id := vid, sender_type := "advocate",
                    sender_id := some uid,
                    content := acceptGreeting (userName s uid),
                    message_type := "system" }])
        let profiles' := s.profiles.map (fun p =>
          if p.user_id == uid then
            { p with current_case_load := some (pyNatOr p.current_case_load 0 + 1) }
          else p)
        (Except.ok r.case_id,
         { s with
           requests := requests'
           cases := cases'
           conversations := convMsg.1
           messages := convMsg.2
           profiles := profiles' })

/-- `POST /case-requests/{request_id}/reject`
(src/backend/app/api/advocate.py): flips the request to rejected with the
reason and the case to advocate_rejected. -/
def rejectRequest (s : DBState) (rid uid : Nat) (reason : Option String) :
    Except LifecycleError Nat × DBState :=
  match findRequest s rid uid with
  | none => (Except.error LifecycleError.notFound, s)
  | some r =>
    if r.status ≠ RequestStatus.pending then
      (Except.error LifecycleError.alreadyProcessed, s)
    else
      match s.cases.find? (fun k => k.id == r.case_id) with
      | none => (Except.error LifecycleError.notFound, s)
      | some _ =>
        let requests' := s.requests.map (fun r2 =>
          if r2.id == rid && r2.advocate_id == uid then
            { r2 with
              status := RequestStatus.rejected
              response_at := some s.now
              rejection_reason := reason }
          else r2)
        let cases' := s.cases.map (fun k2 =>
          if k2.id == r.case_id then
            { k2 with
              status := CaseStatus.advocate_rejected
              advocate_response := some AdvocateResponse.rejected
              rejection_reason := reason
              updated_at := s.now }
          else k2)
        (Except.ok r.case_id,
         { s with requests := requests', cases := cases' })

/-- One lifecycle call (with arbitrary parameters, successful or not). -/
inductive LifecycleStep : DBState → DBState → Prop where
  | select (s : DBState) (cid aid uid : Nat) :
      LifecycleStep s (selectAdvocate s cid aid uid).2
  | accept (s : DBState) (rid uid : Nat) :
      LifecycleStep s (acceptRequest s rid uid).2
  | reject (s : DBState) (rid uid : Nat) (reason : Option String) :
      LifecycleStep s (rejectRequest s rid uid reason).2

/-- States reachable through the lifecycle operations from any state with no
requests yet. -/
inductive ReachableState : DBState → Prop where
  | init (s : DBState) : s.requests = [] → ReachableState s
  | step (s t : DBState) : ReachableState s → LifecycleStep s t → ReachableState t

/-- The number of pending requests a case has. -/
def pendingCount (s : DBState) (cid : Nat) : Nat :=
  s.requests.countP (fun r => r.case_id == cid && r.status == RequestStatus.pending)

/-!
## Case-profile ingestion (send_message, src/backend/app/api/client.py)

When the assistant returns an extracted case profile and a case already
exists, the endpoint runs

  for key, value in case_profile.items():
      if hasattr(case, key) and value:
          setattr(case, key, value)

over the extraction's string fields (matter_type, sub_category, state,
district, court_level, complexity, urgency, case_summary).
-/

/-- The string fields of the assistant's extracted case profile that match
Case attributes. -/
structure ExtractedProfile where
  matter_type : Option String
  sub_category : Option String
  state : Option String
  district : Option String
  court_level : Option String
  complexity : Option String
  urgency : Option String
  case_summary : Option String
deriving DecidableEq

/-- One field of the merge loop: a key that is absent (`none`) or whose value
is falsy (`""` standing in for null/empty) leaves the attribute unchanged. -/
def mergeField (old extracted : Option String) : Option String :=
  match extracted with
  | none => old
  | some v => if v = "" then old else some v

/-- The profile-merge loop of send_message applied to an existing Case row. -/
def ingestMerge (k : CaseRec) (e : ExtractedProfile) : CaseRec :=
  { k with
    matter_type := mergeField k.matter_type e.matter_type
    sub_category := mergeField k.sub_category e.sub_category
    state := mergeField k.state e.state
    district := mergeField k.district e.district
    court_level := mergeField k.court_level e.court_level
    complexity := mergeField k.complexity e.complexity
    urgency := mergeField k.urgency e.urgency
    case_summary := mergeField k.case_summary e.case_summary }

/-!
## Theorems
-/

/-- The Scenario A advocate: Delhi civil practitioner, 19 years, load 28/40,
premium fees, rating 4.8, language and success-rate inputs pinned empty. -/
def scenarioAdvocate : BackendProfile :=
  { user_id := 2, enrollment_number := "D/1234/2005",
    states := some ["Delhi"], districts := some ["South Delhi"],
    home_court := none,
    primary_specializations := some ["civil"], sub_specializations := some [],
    experience_years := some 19, landmark_cases := none, success_rate := none,
    current_case_load := some 28, max_case_capacity := some 40,
    fee_category := some FeeCategory.premium, languages := some [],
    rating := some (24 / 5), review_count := 150,
    is_available := true, is_verified := true }

/-- The Scenario A case: civil, Delhi / South Delhi, district court, moderate
complexity, premium budget; language and success-rate fields omitted. -/
def scenarioCase : CaseDict :=
  { CaseDict.empty with
    matter_type := some "civil"
    state := some "Delhi"
    district := some "South Delhi"
    court_level := some "district"
    complexity := some "moderate"
    budget_category := some "premium" }

/-- C8: on the Scenario A inputs the backend scorer returns exactly 74, and
the availability block contributes +4 ("Moderate availability") because the
workload ratio 28/40 = 0.7 is not strictly below 0.7. -/
theorem scenarioA_score_is_74 :
    (backendCalc scenarioAdvocate scenarioCase).1 = 74 ∧
    availClauseB scenarioAdvocate scenarioCase = (4, ["Moderate availability"]) := by
  constructor
  · simp only [backendCalc, backendClauses, backendRawScore, specClauseB, geoClauseB,
      expClauseB, landmarkClauseB, availClauseB, feeClauseB, langClauseB, ratingClauseB,
      successClauseB, scenarioAdvocate, scenarioCase, CaseDict.empty, pyMin, pyNatOr,
      pyRatOr, backendFeeStr, backendLandmarkCount, complexityMinYears, acceptableFees,
      FeeCategory.val]
    simp
    norm_num
  · simp only [availClauseB, scenarioAdvocate, scenarioCase, CaseDict.empty, pyNatOr]
    norm_num

/-- `mergeField` is idempotent. -/
theorem mergeField_idem (o x : Option String) :
    mergeField (mergeField o x) x = mergeField o x := by
  cases x with
  | none => rfl
  | some v =>
    by_cases hv : v = "" <;> simp [mergeField, hv]

/-- C9: the case-profile merge of send_message touches a field only when the
extracted value is present and non-falsy (so a populated field is never
overwritten with null), and merging the same extraction twice gives the same
Case as merging it once. -/
theorem ingest_merge_correct (k : CaseRec) (e : ExtractedProfile) :
    ingestMerge (ingestMerge k e) e = ingestMerge k e ∧
    (∀ old x : Option String,
      (mergeField old x ≠ old → ∃ w, x = some w ∧ w ≠ "") ∧
      (x = none → mergeField old x = old) ∧
      (old.isSome → (mergeField old x).isSome)) := by
  constructor
  · simp [ingestMerge, mergeField_idem]
  · intro old x
    refine ⟨?_, ?_, ?_⟩
    · intro hne
      cases x with
      | none => exact absurd rfl hne
      | some v =>
        by_cases hv : v = ""
        · simp [mergeField, hv] at hne
        · exact ⟨v, rfl, hv⟩
    · intro hx; subst hx; rfl
    · intro hsome
      cases x with
      | none => exact hsome
      | some v =>
        by_cases hv : v = "" <;> simp [mergeField, hv, hsome]

/-- A concrete case row for witnesses. -/
def caseW : CaseRec :=
  { id := 10, client_id := 1, advocate_id := none, conversation_id := some 20,
    matter_type := some "civil", sub_category := none, state := some "Delhi",
    district := none, court_level := none, complexity := none, urgency := none,
    case_summary := none, status := CaseStatus.ai_conversation,
    selected_advocate_id := none, advocate_response := none,
    rejection_reason := none, updated_at := 0 }

/-- A concrete extraction for witnesses. -/
def extractW : ExtractedProfile :=
  { matter_type := some "civil", sub_category := some "", state := none,
    district := some "South Delhi", court_level := some "district",
    complexity := some "moderate", urgency := none, case_summary := none }

/-- Witness for C9 at a concrete case and extraction. -/
theorem ingest_merge_correct_witness :
    ingestMerge (ingestMerge caseW extractW) extractW = ingestMerge caseW extractW ∧
    mergeField (some "civil") none = some "civil" ∧
    (mergeField (some "civil") (some "criminal")).isSome := by
  refine ⟨(ingest_merge_correct caseW extractW).1, ?_, ?_⟩
  · exact ((ingest_merge_correct caseW extractW).2 (some "civil") none).2.1 rfl
  · exact ((ingest_merge_correct caseW extractW).2 (some "civil") (some "criminal")).2.2
      (by decide)

/-- C6 (amended): an unavailable advocate always scores 0 with exactly one
reason; the reason is the non-availability message unless the geographic hard
filter fires first (the case names a state, the advocate's state list is
non-empty and excludes it), in which case the sole reason is geographic. -/
theorem unavailable_scores_zero (p : BackendProfile) (c : CaseDict)
    (h : p.is_available = false) :
    (backendCalc p c).1 = 0 ∧
    ((backendCalc p c).2 = ["Not available in " ++ c.state.getD ""] ∨
     (backendCalc p c).2 = ["Currently not accepting new cases"]) ∧
    (¬(c.state.getD "" ≠ "" ∧ p.states.getD [] ≠ [] ∧
        c.state.getD "" ∉ p.states.getD []) →
      (backendCalc p c).2 = ["Currently not accepting new cases"]) := by
  by_cases hgeo : c.state.getD "" ≠ "" ∧ p.states.getD [] ≠ [] ∧
      c.state.getD "" ∉ p.states.getD []
  · have hb : backendCalc p c = (0, ["Not available in " ++ c.state.getD ""]) := by
      simp only [backendCalc]
      rw [if_pos hgeo]
    rw [hb]
    exact ⟨rfl, Or.inl rfl, fun hcon => absurd hgeo hcon⟩
  · have hb : backendCalc p c = (0, ["Currently not accepting new cases"]) := by
      simp only [backendCalc]
      rw [if_neg hgeo, if_pos h]
    rw [hb]
    exact ⟨rfl, Or.inr rfl, fun _ => rfl⟩

/-- An unavailable Mumbai-mismatched advocate: both hard filters apply, the
geographic one first. -/
def unavailAdvocate : BackendProfile :=
  { scenarioAdvocate with is_available := false }

/-- A case naming a state the advocate does not practice in. -/
def mumbaiCase : CaseDict :=
  { scenarioCase with state := some "Mumbai" }

/-- Witness for C6's amended statement at a concrete unavailable advocate. -/
theorem unavailable_scores_zero_witness :
    (backendCalc unavailAdvocate scenarioCase).1 = 0 ∧
    (backendCalc unavailAdvocate scenarioCase).2 =
      ["Currently not accepting new cases"] := by
  have h := unavailable_scores_zero unavailAdvocate scenarioCase rfl
  refine ⟨h.1, h.2.2 ?_⟩
  intro hcon
  exact hcon.2.2 (by simp [scenarioCase, unavailAdvocate, scenarioAdvocate, CaseDict.empty])

/-- Counterexample to C6 as stated: for this unavailable advocate the sole
reason string is the geographic message, not a non-availability message. -/
theorem unavailable_reason_counterexample :
    unavailAdvocate.is_available = false ∧
    backendCalc unavailAdvocate mumbaiCase = (0, ["Not available in Mumbai"]) ∧
    ["Not available in Mumbai"] ≠ ["Currently not accepting new cases"] := by
  refine ⟨rfl, ?_, by decide⟩
  simp only [backendCalc]
  rw [if_pos]
  · rfl
  · refine ⟨?_, ?_, ?_⟩ <;>
      simp [mumbaiCase, scenarioCase, unavailAdvocate, scenarioAdvocate, CaseDict.empty]

/-- The Scenario A case with the senior-counsel requirement set. -/
def seniorCase : CaseDict :=
  { scenarioCase with requires_senior_counsel := some true }

/-- The Scenario A case with the senior-counsel requirement explicitly off. -/
def noSeniorCase : CaseDict :=
  { scenarioCase with requires_senior_counsel := some false }

/-- Counterexample to C3 as stated: the backend scorer gives this
19-years advocate the same 74 with and without the senior-counsel
requirement — no +5 is awarded. -/
theorem senior_bonus_counterexample :
    seniorCase.requires_senior_counsel = some true ∧
    noSeniorCase.requires_senior_counsel = some false ∧
    pyNatOr scenarioAdvocate.experience_years 0 = 19 ∧
    (backendCalc scenarioAdvocate seniorCase).1 =
      (backendCalc scenarioAdvocate noSeniorCase).1 := by
  refine ⟨rfl, rfl, rfl, ?_⟩
  rfl

/-- C3 (amended): the +5 senior-counsel bonus exists only in the bot scorer:
there, past the hard filters, a case requiring senior counsel scores exactly
5 raw points more than the same case without the requirement whenever the
advocate has at least 15 years (with the reason "Senior counsel experience");
the backend scorer ignores the requirement entirely. -/
theorem senior_bonus_amended :
    (∀ (a : BotAdvocate) (c : CaseDict),
      c.state.getD "" ∈ a.practicing_states →
      a.available_for_new_cases = true →
      15 ≤ a.years_of_practice →
      botRawScore a { c with requires_senior_counsel := some true } =
        botRawScore a { c with requires_senior_counsel := some false } + 5 ∧
      (seniorClauseBot a { c with requires_senior_counsel := some true }).2 =
        ["Senior counsel experience"]) ∧
    (∀ (p : BackendProfile) (c : CaseDict) (b : Option Bool),
      backendCalc p { c with requires_senior_counsel := b } = backendCalc p c) := by
  constructor
  · intro a c _ _ h15
    have ht : seniorClauseBot a { c with requires_senior_counsel := some true } =
        (5, ["Senior counsel experience"]) := by
      simp [seniorClauseBot, h15]
    have hf : seniorClauseBot a { c with requires_senior_counsel := some false } =
        (0, ([] : List String)) := by
      simp [seniorClauseBot]
    refine ⟨?_, by rw [ht]⟩
    have hspec : ∀ b : Option Bool,
        specClauseBot a { c with requires_senior_counsel := b } = specClauseBot a c :=
      fun _ => rfl
    have hgeo : ∀ b : Option Bool,
        geoClauseBot a { c with requires_senior_counsel := b } = geoClauseBot a c :=
      fun _ => rfl
    have hexp : ∀ b : Option Bool,
        expClauseBot a { c with requires_senior_counsel := b } = expClauseBot a c :=
      fun _ => rfl
    have hlm : ∀ b : Option Bool,
        landmarkClauseBot a { c with requires_senior_counsel := b } =
          landmarkClauseBot a c :=
      fun _ => rfl
    have hav : ∀ b : Option Bool,
        availClauseBot a { c with requires_senior_counsel := b } = availClauseBot a c :=
      fun _ => rfl
    have hfee : ∀ b : Option Bool,
        feeClauseBot a { c with requires_senior_counsel := b } = feeClauseBot a c :=
      fun _ => rfl
    have hlang : ∀ b : Option Bool,
        langClauseBot a { c with requires_senior_counsel := b } = langClauseBot a c :=
      fun _ => rfl
    simp only [botRawScore, botClauses, List.map_cons, List.map_nil, List.sum_cons,
      List.sum_nil, ht, hf, hspec, hgeo, hexp, hlm, hav, hfee, hlang]
    ring
  · intro p c b
    rfl

/-- The bot-side record corresponding to `scenarioAdvocate`. -/
def seniorBotAdvocate : BotAdvocate :=
  { advocate_id := "ADV002", name := "Adv. Scenario", enrollment_number := "D/1234/2005",
    practicing_states := ["Delhi"], practicing_districts := ["South Delhi"],
    home_court := "", specializations := ["civil"], sub_specializations := [],
    years_of_practice := 19, landmark_cases := 0, success_rate_category := "average",
    current_case_load := 28, max_case_load := 40, available_for_new_cases := true,
    fee_category := "premium", languages := [], rating := 24 / 5,
    total_reviews := 150 }

/-- Witness for C3's amended statement at a concrete senior advocate. -/
theorem senior_bonus_amended_witness :
    botRawScore seniorBotAdvocate
        { scenarioCase with requires_senior_counsel := some true } =
      botRawScore seniorBotAdvocate
        { scenarioCase with requires_senior_counsel := some false } + 5 ∧
    backendCalc scenarioAdvocate
        { scenarioCase with requires_senior_counsel := some true } =
      backendCalc scenarioAdvocate scenarioCase := by
  constructor
  · exact (senior_bonus_amended.1 seniorBotAdvocate scenarioCase
      (by simp [seniorBotAdvocate, scenarioCase, CaseDict.empty]) rfl
      (by simp [seniorBotAdvocate])).1
  · exact senior_bonus_amended.2 scenarioAdvocate scenarioCase (some true)

/-- Updating rows with a key-preserving function commutes with row lookup. -/
theorem find?_map_of_pred_inv {α : Type} (l : List α) (g : α → α) (p : α → Bool)
    (hinv : ∀ y, p (g y) = p y) :
    (l.map g).find? p = (l.find? p).map g := by
  induction l with
  | nil => rfl
  | cons a t ih =>
    simp only [List.map_cons, List.find?_cons, hinv a]
    cases hpa : p a
    · simpa [hpa] using ih
    · simp [hpa]

/-- C7: accept and reject on a request that is not pending both fail with the
already-processed error and return the state unchanged — no field of any
request, case, conversation, message or profile is touched. -/
theorem nonpending_accept_reject_noop (s : DBState) (rid uid : Nat)
    (r : RequestRec) (reason : Option String)
    (hr : findRequest s rid uid = some r)
    (h : r.status ≠ RequestStatus.pending) :
    acceptRequest s rid uid = (Except.error LifecycleError.alreadyProcessed, s) ∧
    rejectRequest s rid uid reason = (Except.error LifecycleError.alreadyProcessed, s) := by
  constructor
  · unfold acceptRequest
    rw [hr]
    simp [h]
  · unfold rejectRequest
    rw [hr]
    simp [h]

/-- A non-pending request row for the C7 witness. -/
def processedRequestW : RequestRec :=
  { id := 30, case_id := 10, advocate_id := 2, client_id := 1, match_score := 74,
    match_explanation := "Selected by client", status := RequestStatus.accepted,
    response_at := some 3, rejection_reason := none }

/-- A state holding only the processed request, for the C7 witness. -/
def stateW : DBState :=
  { users := [], profiles := [], cases := [caseW], conversations := [],
    requests := [processedRequestW], messages := [], nextRequestId := 31, now := 7 }

/-- Witness for C7 at a concrete accepted (hence non-pending) request. -/
theorem nonpending_accept_reject_noop_witness :
    acceptRequest stateW 30 2 = (Except.error LifecycleError.alreadyProcessed, stateW) ∧
    rejectRequest stateW 30 2 (some "busy") =
      (Except.error LifecycleError.alreadyProcessed, stateW) :=
  nonpending_accept_reject_noop stateW 30 2 processedRequestW (some "busy")
    (by decide) (by decide)

/-- `pr.current_case_load or 0` is the stored load when one is stored. -/
theorem pyNatOr_some_zero (n : Nat) : pyNatOr (some n) 0 = n := by
  cases n <;> simp [pyNatOr]

/-- C2: accepting a pending request succeeds and applies every mutation in
the same post-state (the single commit): the request becomes accepted with
the response timestamp, the case becomes advocate_assigned with the
advocate's id, the linked conversation moves to advocate_active, and the
advocate's stored case load grows by exactly one. -/
theorem accept_pending_applies_all (s : DBState) (rid uid vid n : Nat)
    (r : RequestRec) (k : CaseRec) (v : ConversationRec) (pr : BackendProfile)
    (hr : findRequest s rid uid = some r)
    (hst : r.status = RequestStatus.pending)
    (hk : s.cases.find? (fun k2 => k2.id == r.case_id) = some k)
    (hv : k.conversation_id = some vid)
    (hcv : s.conversations.find? (fun v2 => v2.id == vid) = some v)
    (hp : s.profiles.find? (fun p2 => p2.user_id == uid) = some pr)
    (hn : pr.current_case_load = some n) :
    (acceptRequest s rid uid).1 = Except.ok r.case_id ∧
    (acceptRequest s rid uid).2.requests.find?
        (fun r2 => r2.id == rid && r2.advocate_id == uid) =
      some { r with status := RequestStatus.accepted, response_at := some s.now } ∧
    (acceptRequest s rid uid).2.cases.find? (fun k2 => k2.id == r.case_id) =
      some { k with
             advocate_id := some uid
             status := CaseStatus.advocate_assigned
             advocate_response := some AdvocateResponse.accepted
             updated_at := s.now } ∧
    (acceptRequest s rid uid).2.conversations.find? (fun v2 => v2.id == vid) =
      some { v with
             phase := ConversationPhase.advocate_active
             updated_at := s.now } ∧
    (acceptRequest s rid uid).2.profiles.find? (fun p2 => p2.user_id == uid) =
      some { pr with current_case_load := some (n + 1) } := by
  have hres : acceptRequest s rid uid =
      (Except.ok r.case_id,
       { s with
         requests := s.requests.map (fun r2 =>
           if r2.id == rid && r2.advocate_id == uid then
             { r2 with status := RequestStatus.accepted, response_at := some s.now }
           else r2)
         cases := s.cases.map (fun k2 =>
           if k2.id == r.case_id then
             { k2 with
               advocate_id := some uid
               status := CaseStatus.advocate_assigned
               advocate_response := some AdvocateResponse.accepted
               updated_at := s.now }
           else k2)
         conversations := s.conversations.map (fun v2 =>
           if v2.id == vid then
             { v2 with
               phase := ConversationPhase.advocate_active
               updated_at := s.now }
           else v2)
         messages := s.messages ++
           [{ conversation_id := vid, sender_type := "advocate",
              sender_id := some uid, content := acceptGreeting (userName s uid),
              message_type := "system" }]
         profiles := s.profiles.map (fun p2 =>
           if p2.user_id == uid then
             { p2 with current_case_load := some (pyNatOr p2.current_case_load 0 + 1) }
           else p2) }) := by
    unfold acceptRequest
    rw [hr]
    dsimp only
    rw [if_neg (by simp [hst])]
    rw [hk]
    dsimp only
    rw [hv]
    dsimp only
    rw [hcv]
  have hr' : s.requests.find? (fun r2 => r2.id == rid && r2.advocate_id == uid) =
      some r := hr
  have hpr0 := List.find?_some hr'
  have hpr : (r.id == rid && r.advocate_id == uid) = true := hpr0
  have hpk0 := List.find?_some hk
  have hpk : (k.id == r.case_id) = true := hpk0
  have hpv0 := List.find?_some hcv
  have hpv : (v.id == vid) = true := hpv0
  have hpp0 := List.find?_some hp
  have hpp : (pr.user_id == uid) = true := hpp0
  rw [hres]
  refine ⟨rfl, ?_, ?_, ?_, ?_⟩
  · rw [find?_map_of_pred_inv _ _ _ (fun y => by by_cases hy : (y.id == rid && y.advocate_id == uid) = true <;> simp [hy])]
    rw [show findRequest s rid uid = s.requests.find? (fun r2 => r2.id == rid && r2.advocate_id == uid) from rfl] at hr
    rw [hr, Option.map_some']
    rw [if_pos hpr]
  · rw [find?_map_of_pred_inv _ _ _ (fun y => by by_cases hy : (y.id == r.case_id) = true <;> simp [hy])]
    rw [hk, Option.map_some']
    rw [if_pos hpk]
  · rw [find?_map_of_pred_inv _ _ _ (fun y => by by_cases hy : (y.id == vid) = true <;> simp [hy])]
    rw [hcv, Option.map_some']
    rw [if_pos hpv]
  · rw [find?_map_of_pred_inv _ _ _ (fun y => by by_cases hy : (y.user_id == uid) = true <;> simp [hy])]
    rw [hp, Option.map_some']
    rw [if_pos hpp, hn, pyNatOr_some_zero]

/-- A pending request row for the C2 witness. -/
def pendingReqW : RequestRec :=
  { id := 30, case_id := 10, advocate_id := 2, client_id := 1, match_score := 74,
    match_explanation := "Specializes in civil matters", status := RequestStatus.pending,
    response_at := none, rejection_reason := none }

/-- The conversation linked to `caseW`. -/
def convW : ConversationRec :=
  { id := 20, client_id := 1, case_id := some 10,
    phase := ConversationPhase.ai_interview, updated_at := 0 }

/-- The accepting advocate's profile, carrying three cases. -/
def profW : BackendProfile :=
  { scenarioAdvocate with current_case_load := some 3 }

/-- A full state with one pending request, for the C2 witness. -/
def acceptStateW : DBState :=
  { users := [{ id := 1, full_name := "Client", is_active := true },
              { id := 2, full_name := "Adv. Scenario", is_active := true }],
    profiles := [profW], cases := [caseW], conversations := [convW],
    requests := [pendingReqW], messages := [], nextRequestId := 31, now := 9 }

/-- Witness for C2: accepting the concrete pending request applies all four
mutations in one post-state. -/
theorem accept_pending_applies_all_witness :
    (acceptRequest acceptStateW 30 2).1 = Except.ok 10 ∧
    (acceptRequest acceptStateW 30 2).2.requests.find?
        (fun r2 => r2.id == 30 && r2.advocate_id == 2) =
      some { pendingReqW with status := RequestStatus.accepted, response_at := some 9 } ∧
    (acceptRequest acceptStateW 30 2).2.conversations.find? (fun v2 => v2.id == 20) =
      some { convW with
             phase := ConversationPhase.advocate_active
             updated_at := 9 } ∧
    (acceptRequest acceptStateW 30 2).2.profiles.find? (fun p2 => p2.user_id == 2) =
      some { profW with current_case_load := some 4 } := by
  have h := accept_pending_applies_all acceptStateW 30 2 20 3 pendingReqW caseW convW
    profW rfl rfl rfl rfl rfl rfl rfl
  exact ⟨h.1, h.2.1, h.2.2.2.1, h.2.2.2.2⟩

/-- Mapping a row update that never turns a non-matching row into a matching
one cannot increase a row count. -/
theorem countP_map_le {α : Type} (l : List α) (g : α → α) (p : α → Bool)
    (h : ∀ x, p (g x) = true → p x = true) :
    (l.map g).countP p ≤ l.countP p := by
  induction l with
  | nil => simp
  | cons a t ih =>
    simp only [List.map_cons, List.countP_cons]
    by_cases hpa : p (g a) = true
    · rw [if_pos hpa, if_pos (h a hpa)]
      omega
    · rw [if_neg hpa]
      by_cases hqa : p a = true
      · rw [if_pos hqa]; omega
      · rw [if_neg hqa]; omega

/-- If no pending request is reported for a case, its pending count is 0. -/
theorem pendingCount_eq_zero (s : DBState) (cid : Nat)
    (h : ¬ hasPendingRequest s cid = true) : pendingCount s cid = 0 := by
  unfold hasPendingRequest at h
  unfold pendingCount
  rw [List.countP_eq_zero]
  intro a ha hpa
  exact h (List.any_eq_true.mpr ⟨a, ha, hpa⟩)

/-- select_advocate preserves the at-most-one-pending invariant. -/
theorem selectAdvocate_preserves (s : DBState) (cid aid uid : Nat)
    (h : ∀ x, pendingCount s x ≤ 1) :
    ∀ x, pendingCount (selectAdvocate s cid aid uid).2 x ≤ 1 := by
  intro x
  unfold selectAdvocate
  cases hfc : findCase s cid uid with
  | none => exact h x
  | some k =>
    dsimp only
    by_cases h1 : k.status = CaseStatus.advocate_assigned
    · rw [if_pos h1]; exact h x
    · rw [if_neg h1]
      by_cases h2 : hasPendingRequest s cid = true
      · rw [if_pos h2]; exact h x
      · rw [if_neg h2]
        cases hfa : findAdvocateData s aid with
        | none => exact h x
        | some pu =>
          dsimp only
          unfold pendingCount
          simp only [List.countP_append]
          by_cases hx : (cid == x && RequestStatus.pending == RequestStatus.pending) = true
          · have hcx : cid = x := by
              have := hx
              simp only [Bool.and_eq_true, beq_iff_eq] at this
              exact this.1
            subst hcx
            have h0 : pendingCount s cid = 0 := pendingCount_eq_zero s cid h2
            unfold pendingCount at h0
            simp [List.countP_cons, hx, h0]
          · simp only [List.countP_cons, List.countP_nil, hx, if_neg hx]
            simpa using h x

/-- accept_case_request preserves the at-most-one-pending invariant. -/
theorem acceptRequest_preserves (s : DBState) (rid uid : Nat)
    (h : ∀ x, pendingCount s x ≤ 1) :
    ∀ x, pendingCount (acceptRequest s rid uid).2 x ≤ 1 := by
  intro x
  unfold acceptRequest
  cases hfr : findRequest s rid uid with
  | none => exact h x
  | some r =>
    dsimp only
    by_cases h1 : r.status ≠ RequestStatus.pending
    · rw [if_pos h1]; exact h x
    · rw [if_neg h1]
      cases hk : s.cases.find? (fun k => k.id == r.case_id) with
      | none => exact h x
      | some k =>
        dsimp only
        unfold pendingCount
        refine le_trans (countP_map_le _ _ _ ?_) (h x)
        intro y hgy
        by_cases hy : (y.id == rid && y.advocate_id == uid) = true
        · simp [hy] at hgy
        · simpa [hy] using hgy

/-- reject_case_request preserves the at-most-one-pending invariant. -/
theorem rejectRequest_preserves (s : DBState) (rid uid : Nat)
    (reason : Option String) (h : ∀ x, pendingCount s x ≤ 1) :
    ∀ x, pendingCount (rejectRequest s rid uid reason).2 x ≤ 1 := by
  intro x
  unfold rejectRequest
  cases hfr : findRequest s rid uid with
  | none => exact h x
  | some r =>
    dsimp only
    by_cases h1 : r.status ≠ RequestStatus.pending
    · rw [if_pos h1]; exact h x
    · rw [if_neg h1]
      cases hk : s.cases.find? (fun k => k.id == r.case_id) with
      | none => exact h x
      | some k =>
        dsimp only
        unfold pendingCount
        refine le_trans (countP_map_le _ _ _ ?_) (h x)
        intro y hgy
        by_cases hy : (y.id == rid && y.advocate_id == uid) = true
        · simp [hy] at hgy
        · simpa [hy] using hgy

/-- C1: in every state reachable through select_advocate / accept / reject
from a state with no requests, each case has at most one pending request;
and select_advocate refuses with a conflict error, leaving the state
untouched, whenever the case is already advocate_assigned or already has a
pending request. -/
theorem pending_request_invariant :
    (∀ s, ReachableState s → ∀ cid, pendingCount s cid ≤ 1) ∧
    (∀ s cid aid uid k, findCase s cid uid = some k →
      (k.status = CaseStatus.advocate_assigned ∨ hasPendingRequest s cid = true) →
      ((selectAdvocate s cid aid uid).1 = Except.error LifecycleError.alreadyAssigned ∨
       (selectAdvocate s cid aid uid).1 = Except.error LifecycleError.pendingExists) ∧
      (selectAdvocate s cid aid uid).2 = s) := by
  constructor
  · intro s hs
    induction hs with
    | init s h0 => intro cid; simp [pendingCount, h0]
    | step s t hs hstep ih =>
      cases hstep with
      | select cid aid uid => exact selectAdvocate_preserves s cid aid uid ih
      | accept rid uid => exact acceptRequest_preserves s rid uid ih
      | reject rid uid reason => exact rejectRequest_preserves s rid uid reason ih
  · intro s cid aid uid k hk hconf
    unfold selectAdvocate
    rw [hk]
    dsimp only
    by_cases h1 : k.status = CaseStatus.advocate_assigned
    · rw [if_pos h1]
      exact ⟨Or.inl rfl, rfl⟩
    · rw [if_neg h1]
      have h2 : hasPendingRequest s cid = true := hconf.resolve_left h1
      rw [if_pos h2]
      exact ⟨Or.inr rfl, rfl⟩

/-- The empty initial state. -/
def initStateW : DBState :=
  { users := [], profiles := [], cases := [], conversations := [],
    requests := [], messages := [], nextRequestId := 0, now := 0 }

/-- The witness case, already assigned to an advocate. -/
def assignedCaseW : CaseRec :=
  { caseW with status := CaseStatus.advocate_assigned, advocate_id := some 2 }

/-- A state whose only case is already assigned, for the C1 witness. -/
def assignedStateW : DBState :=
  { initStateW with cases := [assignedCaseW] }

/-- Witness for C1: the invariant holds in a concrete reachable state, and a
concrete select_advocate on an assigned case is refused without mutation. -/
theorem pending_request_invariant_witness :
    pendingCount initStateW 10 ≤ 1 ∧
    ((selectAdvocate assignedStateW 10 2 1).1 =
        Except.error LifecycleError.alreadyAssigned ∨
     (selectAdvocate assignedStateW 10 2 1).1 =
        Except.error LifecycleError.pendingExists) ∧
    (selectAdvocate assignedStateW 10 2 1).2 = assignedStateW := by
  refine ⟨pending_request_invariant.1 initStateW (ReachableState.init initStateW rfl) 10,
    ?_, ?_⟩
  · exact (pending_request_invariant.2 assignedStateW 10 2 1 assignedCaseW rfl
      (Or.inl rfl)).1
  · exact (pending_request_invariant.2 assignedStateW 10 2 1 assignedCaseW rfl
      (Or.inl rfl)).2

/-- `recLE` is transitive. -/
theorem recLE_trans (a b c : RecEntry) :
    recLE a b → recLE b c → recLE a c := by
  simp only [recLE, decide_eq_true_eq]
  exact fun h1 h2 => le_trans h2 h1

/-- `recLE` is total. -/
theorem recLE_total (a b : RecEntry) : recLE a b || recLE b a := by
  simp only [recLE, Bool.or_eq_true, decide_eq_true_eq]
  exact le_total b.match_score a.match_score

/-- Every entry of the eligible list comes from an available/active snapshot
pair with a positive engine score, and carries exactly that pair's data. -/
theorem mem_eligibleRecs (snapshot : List (BackendProfile × BackendUser))
    (c : CaseDict) (e : RecEntry) (he : e ∈ eligibleRecs snapshot c) :
    ∃ pu, pu ∈ snapshot ∧ (pu.1.is_available && pu.2.is_active) = true ∧
      0 < (backendCalc pu.1 c).1 ∧
      e = makeEntry pu.1 pu.2 (backendCalc pu.1 c).1 (backendCalc pu.1 c).2 := by
  unfold eligibleRecs at he
  rcases List.mem_filterMap.mp he with ⟨pu, hpu, heq⟩
  rcases List.mem_filter.mp hpu with ⟨hmem, hflag⟩
  refine ⟨pu, hmem, hflag, ?_, ?_⟩
  · by_cases hpos : 0 < (backendCalc pu.1 c).1
    · exact hpos
    · rw [if_neg hpos] at heq
      exact absurd heq (by simp)
  · by_cases hpos : 0 < (backendCalc pu.1 c).1
    · rw [if_pos hpos] at heq
      exact (Option.some.injEq _ _ ▸ heq).symm
    · rw [if_neg hpos] at heq
      exact absurd heq (by simp)

/-- C5 (amended): get_recommendations returns only candidates that are
available, active and have a positive engine score, each carried with the
engine's rounded score and reasons; the output is the first `limit` entries
(default 5) of the list sorted by descending match score, where ties keep
their snapshot order (Python's stable sort) — there is no rating, review
count or advocate-id tie-break. -/
theorem recommend_ranking (snapshot : List (BackendProfile × BackendUser))
    (c : CaseDict) (lim : Nat) :
    (∀ e ∈ getRecommendations snapshot c lim, ∃ pu,
        pu ∈ snapshot ∧ (pu.1.is_available && pu.2.is_active) = true ∧
        0 < (backendCalc pu.1 c).1 ∧
        e = makeEntry pu.1 pu.2 (backendCalc pu.1 c).1 (backendCalc pu.1 c).2) ∧
    (getRecommendations snapshot c lim).Pairwise
      (fun x y => y.match_score ≤ x.match_score) ∧
    (getRecommendations snapshot c lim).length ≤ lim ∧
    getRecommendations snapshot c lim = (rankedRecs snapshot c).take lim ∧
    getRecommendationsDefault snapshot c = getRecommendations snapshot c 5 ∧
    (∀ x y, List.Sublist [x, y] (eligibleRecs snapshot c) →
      y.match_score ≤ x.match_score →
      List.Sublist [x, y] (rankedRecs snapshot c)) := by
  refine ⟨?_, ?_, ?_, rfl, rfl, ?_⟩
  · intro e he
    have he1 : e ∈ rankedRecs snapshot c :=
      (List.take_sublist _ _).subset he
    have he2 : e ∈ eligibleRecs snapshot c := by
      unfold rankedRecs at he1
      exact List.mem_mergeSort.mp he1
    exact mem_eligibleRecs snapshot c e he2
  · have hs : (rankedRecs snapshot c).Pairwise (fun a b => recLE a b = true) :=
      List.sorted_mergeSort recLE_trans recLE_total (eligibleRecs snapshot c)
    have hs' := hs.sublist (List.take_sublist lim (rankedRecs snapshot c))
    exact hs'.imp (fun h => by simpa [recLE, decide_eq_true_eq] using h)
  · simp [getRecommendations]
  · intro x y hsub hle
    refine List.sublist_mergeSort recLE_trans recLE_total ?_ hsub
    simp [recLE, hle]

/-- A stable two-element sort keeps an already-ordered pair in place. -/
theorem mergeSort_pair {α : Type} (le : α → α → Bool)
    (htrans : ∀ a b c, le a b → le b c → le a c)
    (htotal : ∀ a b, le a b || le b a) (a b : α) (hab : le a b = true) :
    List.mergeSort [a, b] le = [a, b] := by
  have hsub : List.Sublist [a, b] (List.mergeSort [a, b] le) :=
    List.sublist_mergeSort htrans htotal (by simp [hab]) (List.Sublist.refl _)
  refine (hsub.eq_of_length ?_).symm
  rw [((List.mergeSort_perm [a, b] le).length_eq).symm]

/-- A 19-years, rating-3.0 advocate scoring 45 against `tieCase`. -/
def tieProf1 : BackendProfile :=
  { user_id := 1, enrollment_number := "E1", states := some ["Delhi"],
    districts := none, home_court := none, primary_specializations := none,
    sub_specializations := none, experience_years := some 19,
    landmark_cases := none, success_rate := none, current_case_load := some 0,
    max_case_capacity := none, fee_category := none, languages := none,
    rating := some 3, review_count := 10, is_available := true,
    is_verified := true }

/-- A 9-years, rating-4.8 advocate also scoring 45 against `tieCase`. -/
def tieProf2 : BackendProfile :=
  { tieProf1 with user_id := 2, experience_years := some 9, rating := some (24 / 5) }

/-- The user rows of the tie snapshot. -/
def tieUser1 : BackendUser := { id := 1, full_name := "A", is_active := true }

/-- Second user row of the tie snapshot. -/
def tieUser2 : BackendUser := { id := 2, full_name := "B", is_active := true }

/-- A directory snapshot whose two advocates tie at 45, lower-rated first. -/
def tieSnapshot : List (BackendProfile × BackendUser) :=
  [(tieProf1, tieUser1), (tieProf2, tieUser2)]

/-- A minimal Delhi case. -/
def tieCase : CaseDict := { CaseDict.empty with state := some "Delhi" }

/-- The first tie advocate's recommendation entry. -/
def tieEntry1 : RecEntry :=
  makeEntry tieProf1 tieUser1 (backendCalc tieProf1 tieCase).1
    (backendCalc tieProf1 tieCase).2

/-- The second tie advocate's recommendation entry. -/
def tieEntry2 : RecEntry :=
  makeEntry tieProf2 tieUser2 (backendCalc tieProf2 tieCase).1
    (backendCalc tieProf2 tieCase).2

/-- The first tie advocate scores 45. -/
theorem tieScore1 : (backendCalc tieProf1 tieCase).1 = 45 := by
  simp only [backendCalc, backendClauses, backendRawScore, specClauseB, geoClauseB,
    expClauseB, landmarkClauseB, availClauseB, feeClauseB, langClauseB, ratingClauseB,
    successClauseB, tieProf1, tieCase, CaseDict.empty, pyMin, pyNatOr, pyRatOr,
    backendFeeStr, backendLandmarkCount, complexityMinYears, acceptableFees,
    FeeCategory.val]
  simp
  norm_num

/-- The second tie advocate also scores 45. -/
theorem tieScore2 : (backendCalc tieProf2 tieCase).1 = 45 := by
  simp only [backendCalc, backendClauses, backendRawScore, specClauseB, geoClauseB,
    expClauseB, landmarkClauseB, availClauseB, feeClauseB, langClauseB, ratingClauseB,
    successClauseB, tieProf2, tieProf1, tieCase, CaseDict.empty, pyMin, pyNatOr,
    pyRatOr, backendFeeStr, backendLandmarkCount, complexityMinYears, acceptableFees,
    FeeCategory.val]
  simp
  norm_num

/-- The eligible list of the tie snapshot, in snapshot order. -/
theorem tie_eligible_eq :
    eligibleRecs tieSnapshot tieCase = [tieEntry1, tieEntry2] := by
  have hpos1 : (0 : ℚ) < (backendCalc tieProf1 tieCase).1 := by
    rw [tieScore1]; norm_num
  have hpos2 : (0 : ℚ) < (backendCalc tieProf2 tieCase).1 := by
    rw [tieScore2]; norm_num
  have hfilter : List.filter (fun pu => pu.1.is_available && pu.2.is_active)
      [(tieProf1, tieUser1), (tieProf2, tieUser2)] =
      [(tieProf1, tieUser1), (tieProf2, tieUser2)] := rfl
  unfold eligibleRecs tieSnapshot
  rw [hfilter]
  simp only [List.filterMap_cons, List.filterMap_nil]
  rw [if_pos hpos1, if_pos hpos2]
  rfl

/-- The tied entries stay in snapshot order after sorting. -/
theorem tie_ranked_eq :
    rankedRecs tieSnapshot tieCase = [tieEntry1, tieEntry2] := by
  unfold rankedRecs
  rw [tie_eligible_eq]
  exact mergeSort_pair recLE recLE_trans recLE_total tieEntry1 tieEntry2
    (by simp [recLE, tieEntry1, tieEntry2, makeEntry, tieScore1, tieScore2])

/-- The returned top-5 list of the tie snapshot. -/
theorem tie_get_eq :
    getRecommendations tieSnapshot tieCase 5 = [tieEntry1, tieEntry2] := by
  unfold getRecommendations
  rw [tie_ranked_eq]
  rfl

/-- The eligible list of the reversed tie snapshot. -/
theorem tie_eligible_rev_eq :
    eligibleRecs tieSnapshot.reverse tieCase = [tieEntry2, tieEntry1] := by
  have hpos1 : (0 : ℚ) < (backendCalc tieProf1 tieCase).1 := by
    rw [tieScore1]; norm_num
  have hpos2 : (0 : ℚ) < (backendCalc tieProf2 tieCase).1 := by
    rw [tieScore2]; norm_num
  have hfilter : List.filter (fun pu => pu.1.is_available && pu.2.is_active)
      [(tieProf2, tieUser2), (tieProf1, tieUser1)] =
      [(tieProf2, tieUser2), (tieProf1, tieUser1)] := rfl
  unfold eligibleRecs tieSnapshot
  simp only [List.reverse_cons, List.reverse_nil, List.nil_append, List.cons_append]
  rw [hfilter]
  simp only [List.filterMap_cons, List.filterMap_nil]
  rw [if_pos hpos2, if_pos hpos1]
  rfl

/-- Reversing the snapshot reverses the tied output order. -/
theorem tie_get_rev_eq :
    getRecommendations tieSnapshot.reverse tieCase 5 = [tieEntry2, tieEntry1] := by
  unfold getRecommendations rankedRecs
  rw [tie_eligible_rev_eq]
  rw [mergeSort_pair recLE recLE_trans recLE_total tieEntry2 tieEntry1
    (by simp [recLE, tieEntry1, tieEntry2, makeEntry, tieScore1, tieScore2])]
  rfl

/-- Counterexample to C5's tie-break as stated: two advocates tie at score 45
but the lower-rated one (rating 3.0 vs 4.8) is returned first because it
comes first in the snapshot, and reversing the snapshot reverses the order —
ties are not broken by rating. -/
theorem recommend_tiebreak_counterexample :
    ((getRecommendations tieSnapshot tieCase 5).map
        (fun e => (e.advocate_id, e.rating))) = [(1, 3), (2, 24 / 5)] ∧
    tieEntry1.match_score = tieEntry2.match_score ∧
    (3 : ℚ) < 24 / 5 ∧
    ((getRecommendations tieSnapshot.reverse tieCase 5).map
        (fun e => (e.advocate_id, e.rating))) = [(2, 24 / 5), (1, 3)] := by
  refine ⟨?_, ?_, by norm_num, ?_⟩
  · rw [tie_get_eq]
    simp [tieEntry1, tieEntry2, makeEntry, tieProf1, tieProf2, tieUser1, tieUser2,
      pyRatOr]
  · simp [tieEntry1, tieEntry2, makeEntry, tieScore1, tieScore2]
  · rw [tie_get_rev_eq]
    simp [tieEntry1, tieEntry2, makeEntry, tieProf1, tieProf2, tieUser1, tieUser2,
      pyRatOr]

/-- Witness for C5's amended statement on the tie snapshot. -/
theorem recommend_ranking_witness :
    (∃ pu, pu ∈ tieSnapshot ∧ (pu.1.is_available && pu.2.is_active) = true ∧
      0 < (backendCalc pu.1 tieCase).1 ∧
      tieEntry1 = makeEntry pu.1 pu.2 (backendCalc pu.1 tieCase).1
        (backendCalc pu.1 tieCase).2) ∧
    List.Sublist [tieEntry1, tieEntry2] (rankedRecs tieSnapshot tieCase) := by
  constructor
  · exact (recommend_ranking tieSnapshot tieCase 5).1 tieEntry1
      (by rw [tie_get_eq]; simp)
  · exact (recommend_ranking tieSnapshot tieCase 5).2.2.2.2.2 tieEntry1 tieEntry2
      (by rw [tie_eligible_eq])
      (by simp [tieEntry1, tieEntry2, makeEntry, tieScore1, tieScore2])

/-- C4 (amended): a successful select_advocate appends exactly one pending
request whose frozen score and reasons come from looking the advocate up in
the top-20 recommendation ranking for the case (entry score truncated to an
integer, reasons joined with "; "), with the literal default of score 50 and
reason "Selected by client" when the advocate is not among those entries;
every ranking entry in turn carries the engine's own rounded score and
reasons for that advocate — not a fresh single-advocate scoring call. -/
theorem select_freezes_lookup_score (s : DBState) (cid aid uid rid0 : Nat)
    (k : CaseRec) (s' : DBState)
    (hk : findCase s cid uid = some k)
    (hsel : selectAdvocate s cid aid uid = (Except.ok rid0, s')) :
    s'.requests = s.requests ++
      [{ id := s.nextRequestId, case_id := cid, advocate_id := aid,
         client_id := uid,
         match_score :=
           ⌊(lookupMatchInfo
               (getRecommendations (dirSnapshot s) (caseDictOfCase k) 20) aid).1⌋,
         match_explanation := String.intercalate "; "
           (lookupMatchInfo
             (getRecommendations (dirSnapshot s) (caseDictOfCase k) 20) aid).2,
         status := RequestStatus.pending, response_at := none,
         rejection_reason := none }] ∧
    (∀ e ∈ getRecommendations (dirSnapshot s) (caseDictOfCase k) 20, ∃ pu,
        pu ∈ dirSnapshot s ∧ (pu.1.is_available && pu.2.is_active) = true ∧
        0 < (backendCalc pu.1 (caseDictOfCase k)).1 ∧
        e = makeEntry pu.1 pu.2 (backendCalc pu.1 (caseDictOfCase k)).1
          (backendCalc pu.1 (caseDictOfCase k)).2) := by
  constructor
  · unfold selectAdvocate at hsel
    rw [hk] at hsel
    dsimp only at hsel
    by_cases h1 : k.status = CaseStatus.advocate_assigned
    · rw [if_pos h1] at hsel
      simp at hsel
    · rw [if_neg h1] at hsel
      by_cases h2 : hasPendingRequest s cid = true
      · rw [if_pos h2] at hsel
        simp at hsel
      · rw [if_neg h2] at hsel
        cases hfa : findAdvocateData s aid with
        | none =>
          rw [hfa] at hsel
          simp at hsel
        | some pu =>
          rw [hfa] at hsel
          dsimp only at hsel
          have hstate := congrArg Prod.snd hsel
          dsimp only at hstate
          rw [← hstate]
  · intro e he
    have he1 : e ∈ rankedRecs (dirSnapshot s) (caseDictOfCase k) :=
      (List.take_sublist _ _).subset he
    have he2 : e ∈ eligibleRecs (dirSnapshot s) (caseDictOfCase k) := by
      unfold rankedRecs at he1
      exact List.mem_mergeSort.mp he1
    exact mem_eligibleRecs (dirSnapshot s) (caseDictOfCase k) e he2

/-- An advocate that exists in the directory but is not accepting cases: the
engine scores them 0 and they never appear in any recommendation list. -/
def unavailProfW : BackendProfile :=
  { user_id := 2, enrollment_number := "E2", states := some ["Delhi"],
    districts := none, home_court := none,
    primary_specializations := some ["civil"], sub_specializations := none,
    experience_years := some 10, landmark_cases := none, success_rate := none,
    current_case_load := none, max_case_capacity := none, fee_category := none,
    languages := none, rating := none, review_count := 0,
    is_available := false, is_verified := true }

/-- The state in which the client selects the unavailable advocate. -/
def selStateW : DBState :=
  { users := [{ id := 1, full_name := "Client", is_active := true },
              { id := 2, full_name := "Adv", is_active := true }],
    profiles := [unavailProfW], cases := [caseW], conversations := [],
    requests := [], messages := [], nextRequestId := 100, now := 5 }

/-- The request row that select_advocate creates for the unavailable
advocate: default score 50, "Selected by client". -/
def defaultReqW : RequestRec :=
  { id := 100, case_id := 10, advocate_id := 2, client_id := 1,
    match_score := 50, match_explanation := "Selected by client",
    status := RequestStatus.pending, response_at := none,
    rejection_reason := none }

/-- The post-state of that select_advocate call. -/
def selStateOutW : DBState :=
  { selStateW with
    requests := [defaultReqW]
    cases := [{ caseW with
                status := CaseStatus.pending_advocate
                selected_advocate_id := some 2
                advocate_response := some AdvocateResponse.pending
                updated_at := 5 }]
    nextRequestId := 101 }

/-- No recommendations exist in `selStateW` (its only advocate is
unavailable). -/
theorem selStateW_recs_empty :
    getRecommendations (dirSnapshot selStateW) (caseDictOfCase caseW) 20 = [] := by
  have helig : eligibleRecs (dirSnapshot selStateW) (caseDictOfCase caseW) = [] := rfl
  unfold getRecommendations rankedRecs
  rw [helig, List.mergeSort_nil]
  rfl

/-- Evaluating the concrete select_advocate call on `selStateW`. -/
theorem select_selStateW_eval :
    selectAdvocate selStateW 10 2 1 = (Except.ok 100, selStateOutW) := by
  have hfc : findCase selStateW 10 1 = some caseW := rfl
  have hfa : findAdvocateData selStateW 2 =
      some (unavailProfW, { id := 2, full_name := "Adv", is_active := true }) := rfl
  unfold selectAdvocate
  rw [hfc]
  dsimp only
  rw [if_neg (by decide : ¬ caseW.status = CaseStatus.advocate_assigned)]
  rw [if_neg (by decide : ¬ hasPendingRequest selStateW 10 = true)]
  rw [hfa]
  dsimp only
  rw [selStateW_recs_empty]
  have hfloor : ⌊(lookupMatchInfo [] 2).1⌋ = (50 : ℤ) := by
    norm_num [lookupMatchInfo]
  rw [hfloor]
  rfl

/-- Counterexample to C4 as stated: selecting this advocate succeeds and
freezes score 50 with reason "Selected by client", while the Matching
Engine's score for the same advocate and case is 0 — the stored value is a
ranking lookup default, not the engine's per-advocate score. -/
theorem select_default_score_counterexample :
    selectAdvocate selStateW 10 2 1 = (Except.ok 100, selStateOutW) ∧
    selStateOutW.requests = [defaultReqW] ∧
    defaultReqW.match_score = 50 ∧
    defaultReqW.match_explanation = "Selected by client" ∧
    (backendCalc unavailProfW (caseDictOfCase caseW)).1 = 0 := by
  refine ⟨select_selStateW_eval, rfl, rfl, rfl, ?_⟩
  have hb : backendCalc unavailProfW (caseDictOfCase caseW) =
      (0, ["Currently not accepting new cases"]) := by
    simp only [backendCalc]
    rw [if_neg (by decide),
      if_pos (show unavailProfW.is_available = false from rfl)]
  rw [hb]

/-- Witness for C4's amended statement at the concrete select call. -/
theorem select_freezes_lookup_score_witness :
    selStateOutW.requests = selStateW.requests ++
      [{ id := 100, case_id := 10, advocate_id := 2, client_id := 1,
         match_score :=
           ⌊(lookupMatchInfo
               (getRecommendations (dirSnapshot selStateW)
                 (caseDictOfCase caseW) 20) 2).1⌋,
         match_explanation := String.intercalate "; "
           (lookupMatchInfo
             (getRecommendations (dirSnapshot selStateW)
               (caseDictOfCase caseW) 20) 2).2,
         status := RequestStatus.pending, response_at := none,
         rejection_reason := none }] :=
  (select_freezes_lookup_score selStateW 10 2 1 100 caseW selStateOutW rfl
    select_selStateW_eval).1

/-!
## C10: relating the two scorers

The correspondence hypotheses say that a bot `AdvocateProfile` record carries
the same data as a backend row after the backend's `or`-normalisations; the
lemmas below match the two implementations block by block.
-/

/-- `x or d` is positive when the fallback is. -/
theorem pyNatOr_pos (o : Option Nat) (d : Nat) (hd : 0 < d) : 0 < pyNatOr o d := by
  cases o with
  | none => exact hd
  | some n =>
    by_cases hn : n = 0
    · simp [pyNatOr, hn, hd]
    · simp [pyNatOr, hn]
      omega

/-- Lowercasing the empty string gives the empty string. -/
theorem pyLower_empty : pyLower "" = "" := rfl

/-- A non-empty needle is never inside the empty string. -/
theorem pySubstr_pyLower_empty (s : String) (h : s ≠ "") :
    pySubstr (pyLower s) "" = false := by
  have hd : s.data ≠ [] := by
    intro h0
    exact h (by cases s with | mk l => simp at h0; simp [h0])
  unfold pySubstr pyLower
  cases hs : s.data with
  | nil => exact absurd hs hd
  | cons ch rest => rfl

/-- Specialization blocks agree for corresponding records (when an empty
matter type is not listed as a specialization). -/
theorem specClause_eq (p : BackendProfile) (a : BotAdvocate) (c : CaseDict)
    (h_specs : a.specializations = p.primary_specializations.getD [])
    (h_subs : a.sub_specializations = p.sub_specializations.getD [])
    (hc_mt : c.matter_type.getD "" = "" → "" ∉ a.specializations) :
    specClauseBot a c = specClauseB p c := by
  simp only [specClauseBot, specClauseB, h_subs]
  by_cases hmt : c.matter_type.getD "" ∈ a.specializations
  · have hmt2 : c.matter_type.getD "" ∈ p.primary_specializations.getD [] := by
      rw [← h_specs]; exact hmt
    have hne : c.matter_type.getD "" ≠ "" := fun h0 => hc_mt h0 (h0 ▸ hmt)
    rw [if_pos hmt,
      if_pos (show c.matter_type.getD "" ≠ "" ∧
        c.matter_type.getD "" ∈ p.primary_specializations.getD [] from ⟨hne, hmt2⟩)]
    cases hfind : List.find?
        (fun e => (p.sub_specializations.getD []).any
          fun sub => pySubstr (pyLower e) (pyLower sub))
        (c.specific_expertise_needed.getD []) with
    | some e =>
      have hsp : c.specific_expertise_needed.getD [] ≠ [] := by
        intro h0
        rw [h0] at hfind
        simp at hfind
      rw [if_pos hsp]
    | none =>
      by_cases hsp : c.specific_expertise_needed.getD [] = []
      · rw [if_neg (show ¬ c.specific_expertise_needed.getD [] ≠ [] by
          simp [hsp])]
      · rw [if_pos hsp]
  · have hmt2 : c.matter_type.getD "" ∉ p.primary_specializations.getD [] := by
      intro h
      apply hmt
      rw [h_specs]
      exact h
    rw [if_neg hmt,
      if_neg (show ¬(c.matter_type.getD "" ≠ "" ∧
        c.matter_type.getD "" ∈ p.primary_specializations.getD [])
        from fun hand => hmt2 hand.2)]
    cases hfind : List.find?
        (fun e => (p.sub_specializations.getD []).any
          fun sub => pySubstr (pyLower e) (pyLower sub))
        (c.specific_expertise_needed.getD []) with
    | some e =>
      have hsp : c.specific_expertise_needed.getD [] ≠ [] := by
        intro h0
        rw [h0] at hfind
        simp at hfind
      rw [if_pos hsp]
    | none =>
      by_cases hsp : c.specific_expertise_needed.getD [] = []
      · rw [if_neg (show ¬ c.specific_expertise_needed.getD [] ≠ [] by
          simp [hsp])]
      · rw [if_pos hsp]

/-- Geographic blocks agree for corresponding records past the state filter. -/
theorem geoClause_eq (p : BackendProfile) (a : BotAdvocate) (c : CaseDict)
    (h_districts : a.practicing_districts = p.districts.getD [])
    (h_home : a.home_court = p.home_court.getD "")
    (hc_state : c.state.getD "" ≠ "")
    (hmem : c.state.getD "" ∈ p.states.getD [])
    (hc_district : c.district.getD "" = "" → "" ∉ a.practicing_districts) :
    geoClauseBot a c = geoClauseB p c := by
  simp only [geoClauseBot, geoClauseB]
  rw [if_pos hmem]
  have hdistrict :
      (if c.district.getD "" ∈ a.practicing_districts then
        ((10 : ℚ), ["Familiar with " ++ c.district.getD "" ++ " courts"])
      else (0, [])) =
      (if c.district.getD "" ≠ "" ∧ c.district.getD "" ∈ p.districts.getD [] then
        ((10 : ℚ), ["Familiar with " ++ c.district.getD "" ++ " courts"])
      else (0, [])) := by
    by_cases hd0 : c.district.getD "" = ""
    · have hout : c.district.getD "" ∉ a.practicing_districts := by
        rw [hd0]
        exact hc_district hd0
      rw [if_neg hout, if_neg (show ¬(c.district.getD "" ≠ "" ∧
        c.district.getD "" ∈ p.districts.getD []) from fun hand => hand.1 hd0)]
    · by_cases hd1 : c.district.getD "" ∈ p.districts.getD []
      · have hin : c.district.getD "" ∈ a.practicing_districts := by
          rw [h_districts]
          exact hd1
        rw [if_pos hin, if_pos (show c.district.getD "" ≠ "" ∧
          c.district.getD "" ∈ p.districts.getD [] from ⟨hd0, hd1⟩)]
      · have hout : c.district.getD "" ∉ a.practicing_districts := by
          rw [h_districts]
          exact hd1
        rw [if_neg hout, if_neg (show ¬(c.district.getD "" ≠ "" ∧
          c.district.getD "" ∈ p.districts.getD []) from fun hand => hd1 hand.2)]
  have hhome :
      (if c.court_level.getD "district" = "high_court" then
        (if pySubstr (pyLower (c.state.getD "")) (pyLower a.home_court) then
          ((5 : ℚ), ["Home court is " ++ a.home_court])
        else (0, []))
      else (0, [])) =
      (if c.court_level.getD "district" = "high_court" ∧ p.home_court.getD "" ≠ "" then
        (if pySubstr (pyLower (c.state.getD "")) (pyLower (p.home_court.getD "")) then
          ((5 : ℚ), ["Home court is " ++ p.home_court.getD ""])
        else (0, []))
      else (0, [])) := by
    by_cases hcl : c.court_level.getD "district" = "high_court"
    · by_cases hhc : p.home_court.getD "" = ""
      · rw [if_pos hcl, if_neg (show ¬(c.court_level.getD "district" = "high_court" ∧
          p.home_court.getD "" ≠ "") from fun hand => hand.2 hhc)]
        rw [h_home, hhc, pyLower_empty,
          if_neg (show ¬ pySubstr (pyLower (c.state.getD "")) "" = true by
            simp [pySubstr_pyLower_empty (c.state.getD "") hc_state])]
      · rw [if_pos hcl, if_pos (show c.court_level.getD "district" = "high_court" ∧
          p.home_court.getD "" ≠ "" from ⟨hcl, hhc⟩), h_home]
    · rw [if_neg hcl, if_neg (show ¬(c.court_level.getD "district" = "high_court" ∧
        p.home_court.getD "" ≠ "") from fun hand => hcl hand.1)]
  rw [hdistrict, hhome]
  simp

/-- Experience blocks agree when the dict has no "complexity" key. -/
theorem expClause_eq (p : BackendProfile) (a : BotAdvocate) (c : CaseDict)
    (h_years : a.years_of_practice = pyNatOr p.experience_years 0)
    (hc_complexity : c.complexity = none) :
    expClauseBot a c = expClauseB p c := by
  simp only [expClauseBot, expClauseB, hc_complexity, Option.getD_none, h_years]

/-- The senior-counsel block contributes nothing when it does not apply. -/
theorem seniorClause_zero (a : BotAdvocate) (c : CaseDict)
    (hc_senior : ¬(c.requires_senior_counsel.getD false = true ∧
      15 ≤ a.years_of_practice)) :
    seniorClauseBot a c = (0, []) := by
  simp only [seniorClauseBot]
  rw [if_neg hc_senior]

/-- The high-court landmark blocks award the same points for corresponding
records (their reason texts differ). -/
theorem landmarkClause_score_eq (p : BackendProfile) (a : BotAdvocate)
    (c : CaseDict) (h_landmark : a.landmark_cases = backendLandmarkCount p) :
    (landmarkClauseBot a c).1 = (landmarkClauseB p c).1 := by
  simp only [landmarkClauseBot, landmarkClauseB, h_landmark]
  by_cases h : c.court_level.getD "district" = "high_court" ∧
      5 < backendLandmarkCount p
  · rw [if_pos h, if_pos h]
  · rw [if_neg h, if_neg h]

/-- When the landmark bonus does not fire, the blocks agree entirely. -/
theorem landmarkClause_eq_of_not (p : BackendProfile) (a : BotAdvocate)
    (c : CaseDict) (h_landmark : a.landmark_cases = backendLandmarkCount p)
    (hno : ¬(c.court_level.getD "district" = "high_court" ∧
      5 < backendLandmarkCount p)) :
    landmarkClauseBot a c = (0, []) ∧ landmarkClauseB p c = (0, []) := by
  constructor
  · simp only [landmarkClauseBot, h_landmark]
    rw [if_neg hno]
  · simp only [landmarkClauseB]
    rw [if_neg hno]

/-- Availability blocks agree when the dict has no "urgency" key. -/
theorem availClause_eq (p : BackendProfile) (a : BotAdvocate) (c : CaseDict)
    (h_load : a.current_case_load = pyNatOr p.current_case_load 0)
    (h_max : a.max_case_load = pyNatOr p.max_case_capacity 20)
    (hc_urgency : c.urgency = none) :
    availClauseBot a c = availClauseB p c := by
  simp only [availClauseBot, availClauseB, hc_urgency, Option.getD_none,
    h_load, h_max]
  rw [if_pos (pyNatOr_pos p.max_case_capacity 20 (by norm_num))]

/-- Fee blocks agree for corresponding records. -/
theorem feeClause_eq (p : BackendProfile) (a : BotAdvocate) (c : CaseDict)
    (h_fee : a.fee_category = backendFeeStr p) :
    feeClauseBot a c = feeClauseB p c := by
  simp only [feeClauseBot, feeClauseB, h_fee]

/-- Language blocks agree for corresponding records. -/
theorem langClause_eq (p : BackendProfile) (a : BotAdvocate) (c : CaseDict)
    (h_langs : a.languages = p.languages.getD []) :
    langClauseBot a c = langClauseB p c := by
  simp only [langClauseBot, langClauseB, h_langs]

/-- Rating blocks agree for corresponding records. -/
theorem ratingClause_eq (p : BackendProfile) (a : BotAdvocate)
    (h_rating : a.rating = pyRatOr p.rating 0)
    (h_reviews : a.total_reviews = p.review_count) :
    ratingClauseBot a = ratingClauseB p := by
  simp only [ratingClauseBot, ratingClauseB, h_rating, h_reviews]

/-- C10 (amended): for a bot advocate record carrying the same data as a
backend profile row (after the backend's or-normalisations, with consistent
landmark count and success-rate category), and a case dict using the
estimated_complexity/urgency_level keys, a non-empty state inside a
non-empty practicing list, no applicable senior-counsel bonus and no
empty-string membership corner, the two scorers return the same score; the
full (score, reasons) pairs coincide whenever the high-court landmark bonus
does not fire (its reason text differs between the two sources). -/
theorem scorer_correspondence (p : BackendProfile) (a : BotAdvocate) (c : CaseDict)
    (h_states : a.practicing_states = p.states.getD [])
    (h_districts : a.practicing_districts = p.districts.getD [])
    (h_home : a.home_court = p.home_court.getD "")
    (h_specs : a.specializations = p.primary_specializations.getD [])
    (h_subs : a.sub_specializations = p.sub_specializations.getD [])
    (h_years : a.years_of_practice = pyNatOr p.experience_years 0)
    (h_landmark : a.landmark_cases = backendLandmarkCount p)
    (h_load : a.current_case_load = pyNatOr p.current_case_load 0)
    (h_max : a.max_case_load = pyNatOr p.max_case_capacity 20)
    (h_avail : a.available_for_new_cases = p.is_available)
    (h_fee : a.fee_category = backendFeeStr p)
    (h_langs : a.languages = p.languages.getD [])
    (h_rating : a.rating = pyRatOr p.rating 0)
    (h_reviews : a.total_reviews = p.review_count)
    (h_success : successClauseBot a = successClauseB p)
    (hc_complexity : c.complexity = none)
    (hc_urgency : c.urgency = none)
    (hc_state : c.state.getD "" ≠ "")
    (hc_states_ne : p.states.getD [] ≠ [])
    (hc_senior : ¬(c.requires_senior_counsel.getD false = true ∧
      15 ≤ a.years_of_practice))
    (hc_mt : c.matter_type.getD "" = "" → "" ∉ a.specializations)
    (hc_district : c.district.getD "" = "" → "" ∉ a.practicing_districts) :
    (botCalc a c).1 = (backendCalc p c).1 ∧
    (¬(c.court_level.getD "district" = "high_court" ∧
        5 < backendLandmarkCount p) →
      botCalc a c = backendCalc p c) := by
  by_cases hmem : c.state.getD "" ∈ p.states.getD []
  · have hbot1 : ¬ c.state.getD "" ∉ a.practicing_states := by
      rw [h_states]
      exact fun h => h hmem
    have hback1 : ¬(c.state.getD "" ≠ "" ∧ p.states.getD [] ≠ [] ∧
        c.state.getD "" ∉ p.states.getD []) := fun hand => hand.2.2 hmem
    simp only [botCalc, backendCalc]
    rw [if_neg hbot1, if_neg hback1]
    by_cases hav : p.is_available = false
    · rw [if_pos (h_avail.trans hav), if_pos hav]
      exact ⟨rfl, fun _ => rfl⟩
    · have hav2 : ¬ (a.available_for_new_cases = false) := by
        rw [h_avail]
        exact hav
      rw [if_neg hav2, if_neg hav]
      have hscore : botRawScore a c = backendRawScore p c := by
        unfold botRawScore backendRawScore botClauses backendClauses
        simp only [List.map_cons, List.map_nil, List.sum_cons, List.sum_nil]
        rw [specClause_eq p a c h_specs h_subs hc_mt,
          geoClause_eq p a c h_districts h_home hc_state hmem hc_district,
          expClause_eq p a c h_years hc_complexity,
          seniorClause_zero a c hc_senior,
          availClause_eq p a c h_load h_max hc_urgency,
          feeClause_eq p a c h_fee,
          langClause_eq p a c h_langs,
          ratingClause_eq p a h_rating h_reviews,
          h_success,
          landmarkClause_score_eq p a c h_landmark]
        dsimp only
        ring
      constructor
      · dsimp only
        rw [hscore]
      · intro hno
        obtain ⟨hl1, hl2⟩ := landmarkClause_eq_of_not p a c h_landmark hno
        have hreasons : botReasons a c = backendReasons p c := by
          unfold botReasons backendReasons botClauses backendClauses
          simp only [List.map_cons, List.map_nil]
          rw [specClause_eq p a c h_specs h_subs hc_mt,
            geoClause_eq p a c h_districts h_home hc_state hmem hc_district,
            expClause_eq p a c h_years hc_complexity,
            seniorClause_zero a c hc_senior,
            availClause_eq p a c h_load h_max hc_urgency,
            feeClause_eq p a c h_fee,
            langClause_eq p a c h_langs,
            ratingClause_eq p a h_rating h_reviews,
            h_success, hl1, hl2]
          simp
        rw [hscore, hreasons]
  · have hbot1 : c.state.getD "" ∉ a.practicing_states := by
      rw [h_states]
      exact hmem
    simp only [botCalc, backendCalc]
    rw [if_pos hbot1, if_pos ⟨hc_state, hc_states_ne, hmem⟩]
    exact ⟨rfl, fun _ => rfl⟩

/-- Counterexample to C10 as stated: on the same corresponding
advocate/case data with the senior-counsel requirement set, the two scorers
disagree — the backend returns 74, the bot returns 79 (its +5 senior
bonus). -/
theorem scorer_divergence_counterexample :
    seniorBotAdvocate.practicing_states = scenarioAdvocate.states.getD [] ∧
    seniorBotAdvocate.years_of_practice = pyNatOr scenarioAdvocate.experience_years 0 ∧
    seniorBotAdvocate.fee_category = backendFeeStr scenarioAdvocate ∧
    seniorBotAdvocate.rating = pyRatOr scenarioAdvocate.rating 0 ∧
    seniorCase.requires_senior_counsel = some true ∧
    (backendCalc scenarioAdvocate seniorCase).1 = 74 ∧
    (botCalc seniorBotAdvocate seniorCase).1 = 79 ∧
    (74 : ℚ) ≠ 79 := by
  refine ⟨rfl, rfl, rfl, ?_, rfl, ?_, ?_, by norm_num⟩
  · norm_num [pyRatOr, scenarioAdvocate, seniorBotAdvocate]
  · simp only [backendCalc, backendClauses, backendRawScore, specClauseB, geoClauseB,
      expClauseB, landmarkClauseB, availClauseB, feeClauseB, langClauseB, ratingClauseB,
      successClauseB, scenarioAdvocate, seniorCase, scenarioCase, CaseDict.empty,
      pyMin, pyNatOr, pyRatOr, backendFeeStr, backendLandmarkCount, complexityMinYears,
      acceptableFees, FeeCategory.val]
    simp
    norm_num
  · simp only [botCalc, botClauses, botRawScore, specClauseBot, geoClauseBot,
      expClauseBot, seniorClauseBot, landmarkClauseBot, availClauseBot, feeClauseBot,
      langClauseBot, ratingClauseBot, successClauseBot, seniorBotAdvocate, seniorCase,
      scenarioCase, CaseDict.empty, pyMin, pyNatOr, pyRatOr, complexityMinYears,
      acceptableFees]
    simp
    norm_num

/-- The case for the C10 witness: same Scenario A facts, carried under the
bot's estimated_complexity key, senior-counsel requirement off. -/
def correspondenceCase : CaseDict :=
  { scenarioCase with
    complexity := none
    estimated_complexity := some "moderate"
    requires_senior_counsel := some false }

/-- Witness for C10's amended statement: on the corresponding Scenario A
records without the senior bonus, the two scorers agree exactly. -/
theorem scorer_correspondence_witness :
    (botCalc seniorBotAdvocate correspondenceCase).1 =
      (backendCalc scenarioAdvocate correspondenceCase).1 ∧
    botCalc seniorBotAdvocate correspondenceCase =
      backendCalc scenarioAdvocate correspondenceCase := by
  have h := scorer_correspondence scenarioAdvocate seniorBotAdvocate
    correspondenceCase rfl rfl rfl rfl rfl rfl rfl rfl rfl rfl rfl rfl
    (by norm_num [pyRatOr, scenarioAdvocate, seniorBotAdvocate]) rfl rfl rfl rfl
    (by decide) (by decide)
    (by decide)
    (fun h0 => absurd h0 (by decide))
    (fun h0 => absurd h0 (by decide))
  exact ⟨h.1, h.2 (fun hand => absurd hand.1 (by decide))⟩

end LegalMatch
